import Mathlib

/-!
Verification of the fin-catch offline-first sync engine.

The definitions below are a shallow embedding of the Rust sources
`apps/tauri/src-tauri/src/db.rs`, `apps/tauri/src-tauri/src/sync.rs` and
`apps/native/src-tauri/src/sync_table_map.rs`.  Modelling conventions:

* The SQLite database is a record of three row lists (one per entity
  table) plus the single-row `sync_metadata` checkpoint.  Each row list
  carries the full table schema, including the `deleted` and `deleted_at`
  columns that the Rust structs do not select; every operation touches
  exactly the columns its SQL statement names.  The schema default for an
  INSERT that does not name `deleted` / `deleted_at` is `false` / `none`.
* The `ORDER BY` clauses of the SELECT statements are dropped: every
  property proved here is invariant under reordering of query results,
  and the spec leaves collector ordering unconstrained.
* JSON payloads (`serde_json::Value`) are association lists of a small
  value type.  JSON numbers are modelled as integers: the sync engine
  only moves domain numbers between the store and the wire and never
  computes with them, so `as_i64` and `as_f64` both expose the integer.
* Fallible rusqlite calls return `Except String`; a call that can only
  fail through an SQL-level malfunction (e.g. a SELECT returning a list)
  is modelled as always succeeding, which is what `.is_ok()` sees.
* `chrono::Utc::now()` is threaded in as an explicit `now : Int`
  parameter, and SQLite stores it where the code writes it.
* The rfc3339 round trip of the checkpoint timestamp is dropped: the
  checkpoint is carried as the stored pair of strings.
-/

/-- Model of a `serde_json::Value` as the sync engine uses it. -/
inductive JVal where
  | jnull : JVal
  | jbool : Bool → JVal
  | jnum : Int → JVal
  | jstr : String → JVal
deriving DecidableEq

/-- Indexing `data[key]` on a JSON object: the value, or JSON null when the
key is absent. -/
def jget (data : List (String × JVal)) (key : String) : JVal :=
  match data.find? (fun kv => kv.1 == key) with
  | some kv => kv.2
  | none => JVal.jnull

/-- `Value::as_str`. -/
def JVal.asStr : JVal → Option String
  | JVal.jstr s => some s
  | _ => none

/-- `Value::as_i64`; numbers are modelled as integers. -/
def JVal.asI64 : JVal → Option Int
  | JVal.jnum n => some n
  | _ => none

/-- `Value::as_f64`; numbers are modelled as integers. -/
def JVal.asF64 : JVal → Option Int
  | JVal.jnum n => some n
  | _ => none

/-- `Value::as_bool`. -/
def JVal.asBool : JVal → Option Bool
  | JVal.jbool b => some b
  | _ => none

/-- Lift an optional string into a JSON value (None becomes null, which the
collector strips). -/
def JVal.ofOptStr : Option String → JVal
  | some s => JVal.jstr s
  | none => JVal.jnull

/-- Lift an optional integer into a JSON value. -/
def JVal.ofOptNum : Option Int → JVal
  | some n => JVal.jnum n
  | none => JVal.jnull

/-- Lift an optional boolean into a JSON value. -/
def JVal.ofOptBool : Option Bool → JVal
  | some b => JVal.jbool b
  | none => JVal.jnull

/-- A row of the `portfolios` table (db.rs, CREATE TABLE portfolios). -/
structure PortfolioRow where
  id : String
  name : String
  description : Option String
  base_currency : Option String
  created_at : Int
  sync_version : Int
  synced_at : Option Int
  deleted : Bool
  deleted_at : Option Int
deriving DecidableEq

/-- A row of the `portfolio_entries` table (db.rs, CREATE TABLE
portfolio_entries). -/
structure EntryRow where
  id : String
  portfolio_id : String
  asset_type : String
  symbol : String
  quantity : Int
  purchase_price : Int
  currency : Option String
  purchase_date : Int
  notes : Option String
  tags : Option String
  transaction_fees : Option Int
  source : Option String
  created_at : Int
  unit : Option String
  gold_type : Option String
  face_value : Option Int
  coupon_rate : Option Int
  maturity_date : Option Int
  coupon_frequency : Option String
  current_market_price : Option Int
  last_price_update : Option Int
  ytm : Option Int
  target_price : Option Int
  stop_loss : Option Int
  alert_enabled : Option Bool
  last_alert_at : Option Int
  alert_count : Option Int
  last_alert_type : Option String
  sync_version : Int
  synced_at : Option Int
  deleted : Bool
  deleted_at : Option Int
deriving DecidableEq

/-- A row of the `bond_coupon_payments` table (db.rs, CREATE TABLE
bond_coupon_payments). -/
structure PaymentRow where
  id : String
  entry_id : String
  payment_date : Int
  amount : Int
  currency : String
  notes : Option String
  created_at : Int
  sync_version : Int
  synced_at : Option Int
  deleted : Bool
  deleted_at : Option Int
deriving DecidableEq

/-- The local store: the three entity tables plus the single checkpoint row
of `sync_metadata` (key is always the literal global row). -/
structure DB where
  portfolios : List PortfolioRow
  entries : List EntryRow
  payments : List PaymentRow
  checkpoint : Option (String × String)
deriving DecidableEq

/-- The wire envelope `SyncRecord` of qm_sync_client as sync.rs builds and
consumes it. -/
structure SyncRecord where
  table_name : String
  row_id : String
  data : List (String × JVal)
  version : Int
  deleted : Bool
deriving DecidableEq

/-! db.rs: CRUD and sync helper queries. -/

/-- `Database::create_portfolio`: INSERT naming the seven struct columns;
`deleted` and `deleted_at` take their schema defaults.  The INSERT fails on
a duplicate primary key. -/
def create_portfolio (db : DB) (p : PortfolioRow) : Except String DB :=
  if (db.portfolios.find? (fun q => q.id == p.id)).isSome then
    Except.error "UNIQUE constraint failed: portfolios.id"
  else
    Except.ok { db with portfolios := db.portfolios ++
      [{ p with deleted := false, deleted_at := none }] }

/-- `Database::get_portfolio`: SELECT ... WHERE id = ?; `query_row` errors
with QueryReturnedNoRows when the id is absent. -/
def get_portfolio (db : DB) (id : String) : Except String PortfolioRow :=
  match db.portfolios.find? (fun q => q.id == id) with
  | some p => Except.ok p
  | none => Except.error "QueryReturnedNoRows"

/-- `Database::list_portfolios`: SELECT ... WHERE deleted = 0. -/
def list_portfolios (db : DB) : List PortfolioRow :=
  db.portfolios.filter (fun q => !q.deleted)

/-- `Database::update_portfolio`: UPDATE portfolios SET name, description,
base_currency, synced_at = NULL, sync_version = sync_version + 1
WHERE id = ?.  A missing id updates zero rows and still succeeds. -/
def update_portfolio (db : DB) (p : PortfolioRow) : DB :=
  { db with portfolios := db.portfolios.map (fun q =>
      if q.id == p.id then
        { q with name := p.name, description := p.description,
                 base_currency := p.base_currency,
                 synced_at := none, sync_version := q.sync_version + 1 }
      else q) }

/-- `Database::create_entry`: INSERT naming all thirty struct columns;
`deleted` and `deleted_at` take their schema defaults. -/
def create_entry (db : DB) (e : EntryRow) : Except String DB :=
  if (db.entries.find? (fun q => q.id == e.id)).isSome then
    Except.error "UNIQUE constraint failed: portfolio_entries.id"
  else
    Except.ok { db with entries := db.entries ++
      [{ e with deleted := false, deleted_at := none }] }

/-- `Database::get_entry`: SELECT ... WHERE id = ?. -/
def get_entry (db : DB) (id : String) : Except String EntryRow :=
  match db.entries.find? (fun q => q.id == id) with
  | some e => Except.ok e
  | none => Except.error "QueryReturnedNoRows"

/-- `Database::list_entries`: SELECT ... WHERE portfolio_id = ? AND
deleted = 0. -/
def list_entries (db : DB) (portfolioId : String) : List EntryRow :=
  db.entries.filter (fun q => q.portfolio_id == portfolioId && !q.deleted)

/-- `Database::update_entry`: UPDATE portfolio_entries SET every domain
column except portfolio_id and created_at, synced_at = NULL,
sync_version = sync_version + 1 WHERE id = ?. -/
def update_entry (db : DB) (e : EntryRow) : DB :=
  { db with entries := db.entries.map (fun q =>
      if q.id == e.id then
        { q with asset_type := e.asset_type, symbol := e.symbol,
                 quantity := e.quantity, purchase_price := e.purchase_price,
                 currency := e.currency, purchase_date := e.purchase_date,
                 notes := e.notes, tags := e.tags,
                 transaction_fees := e.transaction_fees, source := e.source,
                 unit := e.unit, gold_type := e.gold_type,
                 face_value := e.face_value, coupon_rate := e.coupon_rate,
                 maturity_date := e.maturity_date,
                 coupon_frequency := e.coupon_frequency,
                 current_market_price := e.current_market_price,
                 last_price_update := e.last_price_update, ytm := e.ytm,
                 target_price := e.target_price, stop_loss := e.stop_loss,
                 alert_enabled := e.alert_enabled,
                 last_alert_at := e.last_alert_at,
                 alert_count := e.alert_count,
                 last_alert_type := e.last_alert_type,
                 synced_at := none, sync_version := q.sync_version + 1 }
      else q) }

/-- `Database::create_coupon_payment`: INSERT naming the nine struct
columns; `deleted` and `deleted_at` take their schema defaults. -/
def create_coupon_payment (db : DB) (c : PaymentRow) : Except String DB :=
  if (db.payments.find? (fun q => q.id == c.id)).isSome then
    Except.error "UNIQUE constraint failed: bond_coupon_payments.id"
  else
    Except.ok { db with payments := db.payments ++
      [{ c with deleted := false, deleted_at := none }] }

/-- `Database::list_coupon_payments`: SELECT ... WHERE entry_id = ? AND
deleted = 0, wrapped in the rusqlite Result the callers test with
`.is_ok()`: the query itself succeeds for every argument, an empty result
list included. -/
def list_coupon_payments (db : DB) (entryId : String) :
    Except String (List PaymentRow) :=
  Except.ok (db.payments.filter (fun q => q.entry_id == entryId && !q.deleted))

/-- `Database::update_coupon_payment`: UPDATE bond_coupon_payments SET
payment_date, amount, currency, notes, synced_at = NULL,
sync_version = sync_version + 1 WHERE id = ?. -/
def update_coupon_payment (db : DB) (c : PaymentRow) : DB :=
  { db with payments := db.payments.map (fun q =>
      if q.id == c.id then
        { q with payment_date := c.payment_date, amount := c.amount,
                 currency := c.currency, notes := c.notes,
                 synced_at := none, sync_version := q.sync_version + 1 }
      else q) }

/-- `Database::query_deleted_portfolios`: SELECT ... WHERE deleted = 1 AND
synced_at IS NULL. -/
def query_deleted_portfolios (db : DB) : List PortfolioRow :=
  db.portfolios.filter (fun q => q.deleted && q.synced_at.isNone)

/-- `Database::query_deleted_entries`: SELECT ... WHERE deleted = 1 AND
synced_at IS NULL. -/
def query_deleted_entries (db : DB) : List EntryRow :=
  db.entries.filter (fun q => q.deleted && q.synced_at.isNone)

/-- `Database::query_deleted_payments`: its `_entry_id` argument appears
nowhere in the SQL, which is SELECT ... WHERE deleted = 1 AND synced_at IS
NULL over the whole table. -/
def query_deleted_payments (db : DB) (_entryId : String) : List PaymentRow :=
  db.payments.filter (fun q => q.deleted && q.synced_at.isNone)

/-- `Database::hard_delete_portfolio`: DELETE the payments under the
portfolio, then its entries, then the portfolio row. -/
def hard_delete_portfolio (db : DB) (id : String) : DB :=
  let childEntry : String → Bool := fun eid =>
    (db.entries.filter (fun e => e.portfolio_id == id)).any (fun e => e.id == eid)
  { db with
    payments := db.payments.filter (fun c => !childEntry c.entry_id),
    entries := db.entries.filter (fun e => !(e.portfolio_id == id)),
    portfolios := db.portfolios.filter (fun p => !(p.id == id)) }

/-- `Database::hard_delete_entry`: DELETE the payments of the entry, then
the entry row. -/
def hard_delete_entry (db : DB) (id : String) : DB :=
  { db with
    payments := db.payments.filter (fun c => !(c.entry_id == id)),
    entries := db.entries.filter (fun e => !(e.id == id)) }

/-- `Database::hard_delete_payment`: DELETE the payment row. -/
def hard_delete_payment (db : DB) (id : String) : DB :=
  { db with payments := db.payments.filter (fun c => !(c.id == id)) }

/-- `Database::get_checkpoint`: the single row keyed global, present only
when both columns are non-null. -/
def db_get_checkpoint (db : DB) : Option (String × String) :=
  db.checkpoint

/-- `Database::save_checkpoint`: INSERT OR REPLACE on the single row keyed
global. -/
def db_save_checkpoint (db : DB) (updatedAt id : String) : DB :=
  { db with checkpoint := some (updatedAt, id) }

/-! sync.rs: the Change Collector. -/

/-- `SyncService::collect_local_changes` pushes a tombstone record with an
empty data payload for a soft-deleted row. -/
def tombstone (tableName : String) (rowId : String) (version : Int) :
    SyncRecord :=
  { table_name := tableName, row_id := rowId, data := [],
    version := version, deleted := true }

/-- `SyncService::portfolio_to_sync_record`: build the data object and
strip null-valued fields. -/
def portfolio_to_sync_record (p : PortfolioRow) (deleted : Bool) :
    SyncRecord :=
  { table_name := "portfolios", row_id := p.id,
    data := ([("name", JVal.jstr p.name),
              ("description", JVal.ofOptStr p.description),
              ("baseCurrency", JVal.ofOptStr p.base_currency),
              ("createdAt", JVal.jnum p.created_at)]).filter
             (fun kv => !(kv.2 == JVal.jnull)),
    version := p.sync_version, deleted := deleted }

/-- `SyncService::entry_to_sync_record`: the parent reference travels as the
portfolioSyncUuid field holding the parent portfolio id; null-valued fields
are stripped. -/
def entry_to_sync_record (e : EntryRow) (p : PortfolioRow) (deleted : Bool) :
    SyncRecord :=
  { table_name := "portfolio_entries", row_id := e.id,
    data := ([("portfolioSyncUuid", JVal.jstr p.id),
              ("assetType", JVal.jstr e.asset_type),
              ("symbol", JVal.jstr e.symbol),
              ("quantity", JVal.jnum e.quantity),
              ("purchasePrice", JVal.jnum e.purchase_price),
              ("currency", JVal.ofOptStr e.currency),
              ("purchaseDate", JVal.jnum e.purchase_date),
              ("notes", JVal.ofOptStr e.notes),
              ("tags", JVal.ofOptStr e.tags),
              ("transactionFees", JVal.ofOptNum e.transaction_fees),
              ("source", JVal.ofOptStr e.source),
              ("createdAt", JVal.jnum e.created_at),
              ("unit", JVal.ofOptStr e.unit),
              ("goldType", JVal.ofOptStr e.gold_type),
              ("faceValue", JVal.ofOptNum e.face_value),
              ("couponRate", JVal.ofOptNum e.coupon_rate),
              ("maturityDate", JVal.ofOptNum e.maturity_date),
              ("couponFrequency", JVal.ofOptStr e.coupon_frequency),
              ("currentMarketPrice", JVal.ofOptNum e.current_market_price),
              ("lastPriceUpdate", JVal.ofOptNum e.last_price_update),
              ("ytm", JVal.ofOptNum e.ytm),
              ("targetPrice", JVal.ofOptNum e.target_price),
              ("stopLoss", JVal.ofOptNum e.stop_loss),
              ("alertEnabled", JVal.ofOptBool e.alert_enabled)]).filter
             (fun kv => !(kv.2 == JVal.jnull)),
    version := e.sync_version, deleted := deleted }

/-- `SyncService::payment_to_sync_record`: the parent reference travels as
the entrySyncUuid field holding the parent entry id; null-valued fields are
stripped. -/
def payment_to_sync_record (c : PaymentRow) (e : EntryRow) (deleted : Bool) :
    SyncRecord :=
  { table_name := "bond_coupon_payments", row_id := c.id,
    data := ([("entrySyncUuid", JVal.jstr e.id),
              ("paymentDate", JVal.jnum c.payment_date),
              ("amount", JVal.jnum c.amount),
              ("currency", JVal.jstr c.currency),
              ("notes", JVal.ofOptStr c.notes),
              ("createdAt", JVal.jnum c.created_at)]).filter
             (fun kv => !(kv.2 == JVal.jnull)),
    version := c.sync_version, deleted := deleted }

/-- The innermost loop of `collect_local_changes`: the dirty active coupon
payments of one entry (list_coupon_payments always returns Ok, so its
value is inlined). -/
def collect_entry_payments (db : DB) (e : EntryRow) : List SyncRecord :=
  ((db.payments.filter (fun q => q.entry_id == e.id && !q.deleted)).filter
      (fun c => c.synced_at.isNone)).map
    (fun c => payment_to_sync_record c e false)

/-- The body of the per-portfolio loop of `collect_local_changes`: the
dirty active entries of the portfolio, then the deleted payments query
(whose argument is ignored), then the dirty active payments of its active
entries. -/
def collect_portfolio_block (db : DB) (p : PortfolioRow) : List SyncRecord :=
  (((list_entries db p.id).filter (fun e => e.synced_at.isNone)).map
      (fun e => entry_to_sync_record e p false))
  ++ ((query_deleted_payments db p.id).map
      (fun c => tombstone "bond_coupon_payments" c.id c.sync_version))
  ++ ((list_entries db p.id).flatMap (collect_entry_payments db))

/-- `SyncService::collect_local_changes`: deleted portfolios, then dirty
active portfolios, then deleted entries, then the per-portfolio block for
every active portfolio. -/
def collect_local_changes (db : DB) : List SyncRecord :=
  ((query_deleted_portfolios db).map
      (fun p => tombstone "portfolios" p.id p.sync_version))
  ++ (((list_portfolios db).filter (fun p => p.synced_at.isNone)).map
      (fun p => portfolio_to_sync_record p false))
  ++ ((query_deleted_entries db).map
      (fun e => tombstone "portfolio_entries" e.id e.sync_version))
  ++ ((list_portfolios db).flatMap (collect_portfolio_block db))

/-! sync.rs: the Apply Engine. -/

/-- The ascending table precedence used to sort non-deleted inbound
records: portfolios 0, portfolio_entries 1, bond_coupon_payments 2,
anything else 3. -/
def upsert_key (r : SyncRecord) : Nat :=
  match r.table_name with
  | "portfolios" => 0
  | "portfolio_entries" => 1
  | "bond_coupon_payments" => 2
  | _ => 3

/-- The descending table precedence used to sort deleted inbound records:
bond_coupon_payments 0, portfolio_entries 1, portfolios 2, anything
else 3. -/
def delete_key (r : SyncRecord) : Nat :=
  match r.table_name with
  | "bond_coupon_payments" => 0
  | "portfolio_entries" => 1
  | "portfolios" => 2
  | _ => 3

/-- Rust `sort_by_key` is a stable sort; a stable sort by a total key is a
unique function of its input, modelled by insertion sort on the key
order. -/
def sort_upserts (records : List SyncRecord) : List SyncRecord :=
  records.insertionSort (fun a b => upsert_key a ≤ upsert_key b)

/-- Stable sort of the tombstones by the descending table precedence. -/
def sort_tombstones (records : List SyncRecord) : List SyncRecord :=
  records.insertionSort (fun a b => delete_key a ≤ delete_key b)

/-- `SyncService::apply_portfolio_change`.  A tombstone hard-deletes; an
upsert builds the Portfolio struct from the data payload (with synced_at
set to now and sync_version to the server version) and either updates (the
id exists) or inserts (it does not).  The pair returned is the store after
the call and the error of the Err case. -/
def apply_portfolio_change (now : Int) (db : DB) (r : SyncRecord) :
    DB × Option String :=
  if r.deleted then (hard_delete_portfolio db r.row_id, none)
  else
    let exists_ := (get_portfolio db r.row_id).isOk
    let p : PortfolioRow :=
      { id := r.row_id,
        name := ((jget r.data "name").asStr).getD "",
        description := (jget r.data "description").asStr,
        base_currency := (jget r.data "baseCurrency").asStr,
        created_at := ((jget r.data "createdAt").asI64).getD 0,
        sync_version := r.version,
        synced_at := some now,
        deleted := false, deleted_at := none }
    if exists_ then (update_portfolio db p, none)
    else
      match create_portfolio db p with
      | Except.ok db2 => (db2, none)
      | Except.error e => (db, some e)

/-- `SyncService::apply_entry_change`.  The only Err of the upsert path is
a data payload with no portfolioSyncUuid string.  The three alert tracking
fields are absent from the struct literal in the source; they are modelled
as none. -/
def apply_entry_change (now : Int) (db : DB) (r : SyncRecord) :
    DB × Option String :=
  if r.deleted then (hard_delete_entry db r.row_id, none)
  else
    let exists_ := (get_entry db r.row_id).isOk
    match (jget r.data "portfolioSyncUuid").asStr with
    | none => (db, some "Missing portfolioSyncUuid")
    | some pid =>
      let e : EntryRow :=
        { id := r.row_id,
          portfolio_id := pid,
          asset_type := ((jget r.data "assetType").asStr).getD "",
          symbol := ((jget r.data "symbol").asStr).getD "",
          quantity := ((jget r.data "quantity").asF64).getD 0,
          purchase_price := ((jget r.data "purchasePrice").asF64).getD 0,
          currency := (jget r.data "currency").asStr,
          purchase_date := ((jget r.data "purchaseDate").asI64).getD 0,
          notes := (jget r.data "notes").asStr,
          tags := (jget r.data "tags").asStr,
          transaction_fees := (jget r.data "transactionFees").asF64,
          source := (jget r.data "source").asStr,
          created_at := ((jget r.data "createdAt").asI64).getD 0,
          unit := (jget r.data "unit").asStr,
          gold_type := (jget r.data "goldType").asStr,
          face_value := (jget r.data "faceValue").asF64,
          coupon_rate := (jget r.data "couponRate").asF64,
          maturity_date := (jget r.data "maturityDate").asI64,
          coupon_frequency := (jget r.data "couponFrequency").asStr,
          current_market_price := (jget r.data "currentMarketPrice").asF64,
          last_price_update := (jget r.data "lastPriceUpdate").asI64,
          ytm := (jget r.data "ytm").asF64,
          target_price := (jget r.data "targetPrice").asF64,
          stop_loss := (jget r.data "stopLoss").asF64,
          alert_enabled := (jget r.data "alertEnabled").asBool,
          last_alert_at := none, alert_count := none,
          last_alert_type := none,
          sync_version := r.version,
          synced_at := some now,
          deleted := false, deleted_at := none }
      if exists_ then (update_entry db e, none)
      else
        match create_entry db e with
        | Except.ok db2 => (db2, none)
        | Except.error err => (db, some err)

/-- `SyncService::apply_payment_change`.  The existence check of the source
is `list_coupon_payments(&record.row_id).is_ok()`, which is true for every
row id, so the upsert path always takes the UPDATE branch. -/
def apply_payment_change (now : Int) (db : DB) (r : SyncRecord) :
    DB × Option String :=
  if r.deleted then (hard_delete_payment db r.row_id, none)
  else
    let exists_ := (list_coupon_payments db r.row_id).isOk
    match (jget r.data "entrySyncUuid").asStr with
    | none => (db, some "Missing entrySyncUuid")
    | some eid =>
      let c : PaymentRow :=
        { id := r.row_id,
          entry_id := eid,
          payment_date := ((jget r.data "paymentDate").asI64).getD 0,
          amount := ((jget r.data "amount").asF64).getD 0,
          currency := ((jget r.data "currency").asStr).getD "",
          notes := (jget r.data "notes").asStr,
          created_at := ((jget r.data "createdAt").asI64).getD 0,
          sync_version := r.version,
          synced_at := some now,
          deleted := false, deleted_at := none }
      if exists_ then (update_coupon_payment db c, none)
      else
        match create_coupon_payment db c with
        | Except.ok db2 => (db2, none)
        | Except.error err => (db, some err)

/-- The per-record dispatch of `apply_remote_changes`: an unknown table
name only logs and succeeds. -/
def apply_one (now : Int) (db : DB) (r : SyncRecord) : DB × Option String :=
  match r.table_name with
  | "portfolios" => apply_portfolio_change now db r
  | "portfolio_entries" => apply_entry_change now db r
  | "bond_coupon_payments" => apply_payment_change now db r
  | _ => (db, none)

/-- The record loops of `apply_remote_changes`: each record is applied in
turn and the first Err stops the loop (the question mark operator), keeping
the mutations already made. -/
def apply_list (now : Int) : DB → List SyncRecord → DB × Option String
  | db, [] => (db, none)
  | db, r :: rs =>
    match apply_one now db r with
    | (db2, none) => apply_list now db2 rs
    | (db2, some e) => (db2, some e)

/-- `SyncService::apply_remote_changes`: split the batch into non-deleted
and deleted records, sort the former by ascending and the latter by
descending table precedence, then apply the upserts and afterwards the
tombstones, stopping at the first Err. -/
def apply_remote_changes (now : Int) (db : DB) (records : List SyncRecord) :
    DB × Option String :=
  let nonDeleted := sort_upserts (records.filter (fun r => !r.deleted))
  let tombs := sort_tombstones (records.filter (fun r => r.deleted))
  match apply_list now db nonDeleted with
  | (db1, none) => apply_list now db1 tombs
  | (db1, some e) => (db1, some e)

/-! sync.rs: marking the outbound batch synced, and the orchestrator. -/

/-- One step of `SyncService::mark_records_synced`: a deleted record is
hard-deleted locally (unknown tables fall to the Ok(()) arm); an active
record runs UPDATE table SET synced_at = ?, sync_version = sync_version + 1
WHERE id = ?, whose dynamically assembled table name fails SQL preparation
when it is not a table of the schema. -/
def mark_one_synced (db : DB) (r : SyncRecord) (syncedAt : Int) :
    DB × Option String :=
  if r.deleted then
    match r.table_name with
    | "portfolios" => (hard_delete_portfolio db r.row_id, none)
    | "portfolio_entries" => (hard_delete_entry db r.row_id, none)
    | "bond_coupon_payments" => (hard_delete_payment db r.row_id, none)
    | _ => (db, none)
  else
    match r.table_name with
    | "portfolios" =>
      ({ db with portfolios := db.portfolios.map (fun q =>
           if q.id == r.row_id then
             { q with synced_at := some syncedAt,
                      sync_version := q.sync_version + 1 }
           else q) }, none)
    | "portfolio_entries" =>
      ({ db with entries := db.entries.map (fun q =>
           if q.id == r.row_id then
             { q with synced_at := some syncedAt,
                      sync_version := q.sync_version + 1 }
           else q) }, none)
    | "bond_coupon_payments" =>
      ({ db with payments := db.payments.map (fun q =>
           if q.id == r.row_id then
             { q with synced_at := some syncedAt,
                      sync_version := q.sync_version + 1 }
           else q) }, none)
    | t => (db, some ("no such table: " ++ t))

/-- `SyncService::mark_records_synced`: the loop over the outbound batch,
stopping at the first Err. -/
def mark_records_synced (db : DB) (records : List SyncRecord)
    (syncedAt : Int) : DB × Option String :=
  match records with
  | [] => (db, none)
  | r :: rs =>
    match mark_one_synced db r syncedAt with
    | (db2, none) => mark_records_synced db2 rs syncedAt
    | (db2, some e) => (db2, some e)

/-- The push half of the delta response. -/
structure PushResult where
  synced : Nat
  conflicts : List String
deriving DecidableEq

/-- The pull half of the delta response; the checkpoint is the stored
string pair. -/
structure PullResult where
  records : List SyncRecord
  checkpoint : String × String
deriving DecidableEq

/-- The combined delta response; either half may be absent. -/
structure DeltaResponse where
  push : Option PushResult
  pull : Option PullResult
deriving DecidableEq

/-- `SyncResult` of sync.rs. -/
structure SyncResult where
  pushed : Nat
  pulled : Nat
  conflicts : Nat
  success : Bool
  error : Option String
  synced_at : Int
deriving DecidableEq

/-- `SyncService::sync_now`.  The auth and configuration lookups are
abstracted into one fallible step that precedes everything, and the single
combined push and pull network exchange (client.delta, covering transport,
token and response parsing failures) is a function argument.  On exchange
success: the push half marks the outbound batch synced, the pull half
applies the inbound batch and then saves the new checkpoint; each
questioned step keeps the mutations already made and returns Err. -/
def sync_now (auth : Except String Unit)
    (exchange : List SyncRecord → Option (String × String) →
      Except String DeltaResponse)
    (startTime : Int) (db : DB) : DB × Except String SyncResult :=
  match auth with
  | Except.error e => (db, Except.error e)
  | Except.ok _ =>
    let localChanges := collect_local_changes db
    let checkpoint := db_get_checkpoint db
    match exchange localChanges checkpoint with
    | Except.error e => (db, Except.error ("Sync failed: " ++ e))
    | Except.ok response =>
      let pushStep : DB × Nat × Nat × Option String :=
        match response.push with
        | some push =>
          match mark_records_synced db localChanges startTime with
          | (d, none) => (d, push.synced, push.conflicts.length, none)
          | (d, some e) => (d, push.synced, push.conflicts.length, some e)
        | none => (db, 0, 0, none)
      match pushStep with
      | (d, _, _, some e) => (d, Except.error e)
      | (d1, pushed, conflicts, none) =>
        match response.pull with
        | some pull =>
          match apply_remote_changes startTime d1 pull.records with
          | (d2, some e) => (d2, Except.error e)
          | (d2, none) =>
            let d3 := db_save_checkpoint d2 pull.checkpoint.1 pull.checkpoint.2
            (d3, Except.ok { pushed := pushed, pulled := pull.records.length,
                             conflicts := conflicts, success := true,
                             error := none, synced_at := startTime })
        | none =>
          (d1, Except.ok { pushed := pushed, pulled := 0,
                           conflicts := conflicts, success := true,
                           error := none, synced_at := startTime })

/-! sync_table_map.rs: the Table Name Mapper. -/

/-- The static bidirectional TABLE_MAP. -/
def TABLE_MAP : List (String × String) :=
  [("portfolioEntries", "portfolio_entries"),
   ("bondCouponPayments", "bond_coupon_payments")]

/-- `sync_to_db`: find the pair whose wire name matches and return its
local name, or the input unchanged. -/
def sync_to_db (syncName : String) : String :=
  match TABLE_MAP.find? (fun sd => sd.1 == syncName) with
  | some sd => sd.2
  | none => syncName

/-- `db_to_sync`: find the pair whose local name matches and return its
wire name, or the input unchanged. -/
def db_to_sync (dbName : String) : String :=
  match TABLE_MAP.find? (fun sd => sd.2 == dbName) with
  | some sd => sd.1
  | none => dbName

/-! Concrete fixtures used by the counterexamples and witnesses. -/

/-- The empty local store. -/
def emptyDB : DB :=
  { portfolios := [], entries := [], payments := [], checkpoint := none }

/-- A fresh inbound portfolio upsert. -/
def recPortfolio : SyncRecord :=
  { table_name := "portfolios", row_id := "p1",
    data := [("name", JVal.jstr "X"), ("createdAt", JVal.jnum 0)],
    version := 3, deleted := false }

/-- The store after applying `recPortfolio` to the empty store at time 7. -/
def dbAfterPortfolio : DB :=
  { portfolios := [{ id := "p1", name := "X", description := none,
                     base_currency := none, created_at := 0,
                     sync_version := 3, synced_at := some 7,
                     deleted := false, deleted_at := none }],
    entries := [], payments := [], checkpoint := none }

/-- An inbound entry upsert whose data payload is missing the
portfolioSyncUuid parent field. -/
def recEntryNoParentField : SyncRecord :=
  { table_name := "portfolio_entries", row_id := "e9", data := [],
    version := 1, deleted := false }

/-- A well-formed inbound entry upsert whose parent is `recPortfolio`. -/
def recEntryGood : SyncRecord :=
  { table_name := "portfolio_entries", row_id := "e2",
    data := [("portfolioSyncUuid", JVal.jstr "p1")],
    version := 1, deleted := false }

/-- An already synced local entry row, the parent of `recPaymentC1`. -/
def rowEntryE1 : EntryRow :=
  { id := "e1", portfolio_id := "p1", asset_type := "bond", symbol := "B",
    quantity := 1, purchase_price := 1, currency := none, purchase_date := 0,
    notes := none, tags := none, transaction_fees := none, source := none,
    created_at := 0, unit := none, gold_type := none, face_value := none,
    coupon_rate := none, maturity_date := none, coupon_frequency := none,
    current_market_price := none, last_price_update := none, ytm := none,
    target_price := none, stop_loss := none, alert_enabled := none,
    last_alert_at := none, alert_count := none, last_alert_type := none,
    sync_version := 1, synced_at := some 1, deleted := false,
    deleted_at := none }

/-- A store holding only the entry `rowEntryE1`. -/
def dbWithEntryE1 : DB :=
  { portfolios := [], entries := [rowEntryE1], payments := [],
    checkpoint := none }

/-- A fresh inbound coupon payment upsert whose parent entry `rowEntryE1`
is present locally. -/
def recPaymentC1 : SyncRecord :=
  { table_name := "bond_coupon_payments", row_id := "c1",
    data := [("entrySyncUuid", JVal.jstr "e1"), ("paymentDate", JVal.jnum 2),
             ("amount", JVal.jnum 5), ("currency", JVal.jstr "USD"),
             ("createdAt", JVal.jnum 1)],
    version := 2, deleted := false }

/-- A local portfolio row that is already synced (synced_at 5, version 1). -/
def rowPortfolioSynced : PortfolioRow :=
  { id := "pX", name := "Old", description := none, base_currency := none,
    created_at := 0, sync_version := 1, synced_at := some 5,
    deleted := false, deleted_at := none }

/-- A store holding only the synced portfolio `rowPortfolioSynced`. -/
def dbWithPortfolioSynced : DB :=
  { portfolios := [rowPortfolioSynced], entries := [], payments := [],
    checkpoint := none }

/-- An inbound upsert for the existing portfolio pX carrying server
version 9. -/
def recPortfolioV9 : SyncRecord :=
  { table_name := "portfolios", row_id := "pX",
    data := [("name", JVal.jstr "New"), ("createdAt", JVal.jnum 0)],
    version := 9, deleted := false }

/-- An active, already synced portfolio row pA. -/
def rowPortfolioA : PortfolioRow :=
  { id := "pA", name := "A", description := none, base_currency := none,
    created_at := 0, sync_version := 1, synced_at := some 1,
    deleted := false, deleted_at := none }

/-- A second active, already synced portfolio row pB. -/
def rowPortfolioB : PortfolioRow :=
  { rowPortfolioA with id := "pB" }

/-- A soft-deleted, not yet synced coupon payment row. -/
def rowPaymentDeleted : PaymentRow :=
  { id := "c1", entry_id := "e1", payment_date := 0, amount := 1,
    currency := "USD", notes := none, created_at := 0, sync_version := 2,
    synced_at := none, deleted := true, deleted_at := some 3 }

/-- A store with two active portfolios and one dirty soft-deleted
payment. -/
def dbTwoPortfolios : DB :=
  { portfolios := [rowPortfolioA, rowPortfolioB], entries := [],
    payments := [rowPaymentDeleted], checkpoint := none }

/-- A soft-deleted, not yet synced portfolio row pD. -/
def rowPortfolioDeleted : PortfolioRow :=
  { id := "pD", name := "D", description := none, base_currency := none,
    created_at := 0, sync_version := 1, synced_at := none,
    deleted := true, deleted_at := some 3 }

/-- A dirty active entry whose parent portfolio is the soft-deleted
pD. -/
def rowEntryOrphan : EntryRow :=
  { id := "eO", portfolio_id := "pD", asset_type := "stock", symbol := "S",
    quantity := 1, purchase_price := 1, currency := none, purchase_date := 0,
    notes := none, tags := none, transaction_fees := none, source := none,
    created_at := 0, unit := none, gold_type := none, face_value := none,
    coupon_rate := none, maturity_date := none, coupon_frequency := none,
    current_market_price := none, last_price_update := none, ytm := none,
    target_price := none, stop_loss := none, alert_enabled := none,
    last_alert_at := none, alert_count := none, last_alert_type := none,
    sync_version := 1, synced_at := none, deleted := false,
    deleted_at := none }

/-- A store with two active portfolios, one soft-deleted portfolio, a
dirty active entry under the soft-deleted portfolio, and one dirty
soft-deleted payment. -/
def dbOrphanMix : DB :=
  { portfolios := [rowPortfolioA, rowPortfolioB, rowPortfolioDeleted],
    entries := [rowEntryOrphan],
    payments := [rowPaymentDeleted], checkpoint := none }

/-- Occurrence count of records for one row of one table in a collector
output. -/
def rec_count (out : List SyncRecord) (tableName rowId : String) : Nat :=
  out.countP (fun r => r.table_name == tableName && r.row_id == rowId)

/-- A record on which `apply_one` can return Err: a non-deleted entry or
payment record whose parent-id field is absent from the data payload (the
only Err sources of the apply functions; see the lemmas below). -/
def record_can_fail (r : SyncRecord) : Bool :=
  !r.deleted &&
    ((r.table_name == "portfolio_entries" &&
        ((jget r.data "portfolioSyncUuid").asStr).isNone) ||
     (r.table_name == "bond_coupon_payments" &&
        ((jget r.data "entrySyncUuid").asStr).isNone))

/-! Claim C8: the Table Name Mapper. -/

/-- C8: sync_to_db and db_to_sync are total functions that act as identity
outside the two explicitly mapped pairs, translate each mapped name to the
other, and are mutually inverse on the mapped pairs. -/
theorem table_name_mapper_total_inverse :
    sync_to_db "portfolioEntries" = "portfolio_entries" ∧
    sync_to_db "bondCouponPayments" = "bond_coupon_payments" ∧
    db_to_sync "portfolio_entries" = "portfolioEntries" ∧
    db_to_sync "bond_coupon_payments" = "bondCouponPayments" ∧
    db_to_sync (sync_to_db "portfolioEntries") = "portfolioEntries" ∧
    db_to_sync (sync_to_db "bondCouponPayments") = "bondCouponPayments" ∧
    sync_to_db (db_to_sync "portfolio_entries") = "portfolio_entries" ∧
    sync_to_db (db_to_sync "bond_coupon_payments") = "bond_coupon_payments" ∧
    (∀ s : String, s ≠ "portfolioEntries" → s ≠ "bondCouponPayments" →
      sync_to_db s = s) ∧
    (∀ s : String, s ≠ "portfolio_entries" → s ≠ "bond_coupon_payments" →
      db_to_sync s = s) := by
  refine ⟨by decide, by decide, by decide, by decide, by decide, by decide,
    by decide, by decide, ?_, ?_⟩
  · intro s h1 h2
    have e1 : ("portfolioEntries" == s) = false :=
      beq_eq_false_iff_ne.mpr (fun h => h1 h.symm)
    have e2 : ("bondCouponPayments" == s) = false :=
      beq_eq_false_iff_ne.mpr (fun h => h2 h.symm)
    simp [sync_to_db, TABLE_MAP, List.find?, e1, e2]
  · intro s h1 h2
    have e1 : ("portfolio_entries" == s) = false :=
      beq_eq_false_iff_ne.mpr (fun h => h1 h.symm)
    have e2 : ("bond_coupon_payments" == s) = false :=
      beq_eq_false_iff_ne.mpr (fun h => h2 h.symm)
    simp [db_to_sync, TABLE_MAP, List.find?, e1, e2]

/-- Witness for C8: the identity fallback evaluated on the one table name
both sides share. -/
theorem table_name_mapper_total_inverse_witness :
    sync_to_db "portfolios" = "portfolios" ∧
    db_to_sync "portfolios" = "portfolios" :=
  ⟨(table_name_mapper_total_inverse.2.2.2.2.2.2.2.2.1) "portfolios"
      (by decide) (by decide),
   (table_name_mapper_total_inverse.2.2.2.2.2.2.2.2.2) "portfolios"
      (by decide) (by decide)⟩

/-! Claim C9: query_deleted_payments ignores its argument. -/

/-- C9: for every store and any two entry-id arguments the query returns
the same list, namely every payment with deleted set and synced_at null,
regardless of which entry it belongs to. -/
theorem query_deleted_payments_ignores_argument (db : DB) (e1 e2 : String) :
    query_deleted_payments db e1 = query_deleted_payments db e2 ∧
    ∀ c : PaymentRow, c ∈ query_deleted_payments db e1 ↔
      (c ∈ db.payments ∧ c.deleted = true ∧ c.synced_at = none) := by
  refine ⟨rfl, ?_⟩
  intro c
  simp [query_deleted_payments, List.mem_filter, Option.isNone_iff_eq_none,
    and_assoc]

/-! Claim C6: a failed exchange mutates nothing. -/

/-- C6: when the auth step fails, or the combined push and pull exchange
fails (transport, authentication or parsing, all surfaced as the Err of
the exchange), sync_now returns Err and the store it returns is exactly
the input store: same tables, same checkpoint. -/
theorem sync_now_failure_leaves_store_untouched
    (exchange : List SyncRecord → Option (String × String) →
      Except String DeltaResponse)
    (startTime : Int) (db : DB) (a e : String) :
    (sync_now (Except.error a) exchange startTime db
      = (db, Except.error a)) ∧
    (exchange (collect_local_changes db) (db_get_checkpoint db)
        = Except.error e →
      sync_now (Except.ok ()) exchange startTime db
        = (db, Except.error ("Sync failed: " ++ e))) := by
  constructor
  · rfl
  · intro h
    unfold sync_now
    dsimp only
    rw [h]

/-- Witness for C6: a concrete always-failing exchange on the two-portfolio
store. -/
theorem sync_now_failure_leaves_store_untouched_witness :
    sync_now (Except.ok ()) (fun _ _ => Except.error "timeout") 9
        dbTwoPortfolios
      = (dbTwoPortfolios, Except.error ("Sync failed: " ++ "timeout")) :=
  (sync_now_failure_leaves_store_untouched
    (fun _ _ => Except.error "timeout") 9 dbTwoPortfolios "a" "timeout").2 rfl

/-! Claim C10: the Ok variant of sync_now. -/

/-- C10: whenever sync_now returns Ok, the SyncResult carries
success = true and error = none; every failure travels through the Err
variant instead. -/
theorem sync_now_ok_implies_success (auth : Except String Unit)
    (exchange : List SyncRecord → Option (String × String) →
      Except String DeltaResponse)
    (startTime : Int) (db : DB) (r : SyncResult)
    (h : (sync_now auth exchange startTime db).2 = Except.ok r) :
    r.success = true ∧ r.error = none := by
  unfold sync_now at h
  cases auth with
  | error e => simp at h
  | ok u =>
    dsimp only at h
    cases hex : exchange (collect_local_changes db) (db_get_checkpoint db) with
    | error e => rw [hex] at h; simp at h
    | ok response =>
      rw [hex] at h
      dsimp only at h
      split at h
      · simp at h
      · split at h
        · split at h
          · simp at h
          · cases h; exact ⟨rfl, rfl⟩
        · cases h; exact ⟨rfl, rfl⟩

/-- Witness for C10: a concrete successful cycle with an empty response. -/
theorem sync_now_ok_implies_success_witness :
    (sync_now (Except.ok ())
        (fun _ _ => Except.ok { push := none, pull := none }) 4 emptyDB).2
      = Except.ok { pushed := 0, pulled := 0, conflicts := 0,
                    success := true, error := none, synced_at := 4 } ∧
    ({ pushed := 0, pulled := 0, conflicts := 0, success := true,
       error := none, synced_at := 4 : SyncResult }).success = true ∧
    ({ pushed := 0, pulled := 0, conflicts := 0, success := true,
       error := none, synced_at := 4 : SyncResult }).error = none :=
  ⟨rfl, sync_now_ok_implies_success (Except.ok ())
    (fun _ _ => Except.ok { push := none, pull := none }) 4 emptyDB _ rfl⟩

/-! Checkpoint preservation lemmas: no table operation of the cycle writes
the sync_metadata row. -/

/-- A successful portfolio INSERT leaves the checkpoint row alone. -/
theorem create_portfolio_checkpoint (db db2 : DB) (p : PortfolioRow)
    (h : create_portfolio db p = Except.ok db2) :
    db2.checkpoint = db.checkpoint := by
  unfold create_portfolio at h
  split at h
  · cases h
  · cases h; rfl

/-- A successful entry INSERT leaves the checkpoint row alone. -/
theorem create_entry_checkpoint (db db2 : DB) (e : EntryRow)
    (h : create_entry db e = Except.ok db2) :
    db2.checkpoint = db.checkpoint := by
  unfold create_entry at h
  split at h
  · cases h
  · cases h; rfl

/-- A successful payment INSERT leaves the checkpoint row alone. -/
theorem create_coupon_payment_checkpoint (db db2 : DB) (c : PaymentRow)
    (h : create_coupon_payment db c = Except.ok db2) :
    db2.checkpoint = db.checkpoint := by
  unfold create_coupon_payment at h
  split at h
  · cases h
  · cases h; rfl

/-- Applying one inbound portfolio record leaves the checkpoint alone. -/
theorem apply_portfolio_change_checkpoint (now : Int) (db : DB)
    (r : SyncRecord) :
    ((apply_portfolio_change now db r).1).checkpoint = db.checkpoint := by
  unfold apply_portfolio_change
  split
  · rfl
  · dsimp only
    split
    · rfl
    · split
      · rename_i db2 hc
        exact create_portfolio_checkpoint db db2 _ hc
      · rfl

/-- Applying one inbound entry record leaves the checkpoint alone. -/
theorem apply_entry_change_checkpoint (now : Int) (db : DB)
    (r : SyncRecord) :
    ((apply_entry_change now db r).1).checkpoint = db.checkpoint := by
  unfold apply_entry_change
  split
  · rfl
  · dsimp only
    split
    · rfl
    · split
      · rfl
      · split
        · rename_i db2 hc
          exact create_entry_checkpoint db db2 _ hc
        · rfl

/-- Applying one inbound payment record leaves the checkpoint alone. -/
theorem apply_payment_change_checkpoint (now : Int) (db : DB)
    (r : SyncRecord) :
    ((apply_payment_change now db r).1).checkpoint = db.checkpoint := by
  unfold apply_payment_change
  split
  · rfl
  · dsimp only
    split
    · rfl
    · split
      · rfl
      · split
        · rename_i db2 hc
          exact create_coupon_payment_checkpoint db db2 _ hc
        · rfl

/-- The per-record dispatch leaves the checkpoint alone. -/
theorem apply_one_checkpoint (now : Int) (db : DB) (r : SyncRecord) :
    ((apply_one now db r).1).checkpoint = db.checkpoint := by
  unfold apply_one
  split
  · exact apply_portfolio_change_checkpoint now db r
  · exact apply_entry_change_checkpoint now db r
  · exact apply_payment_change_checkpoint now db r
  · rfl

/-- The record loop leaves the checkpoint alone, whether it finishes or
stops at an Err. -/
theorem apply_list_checkpoint (now : Int) :
    ∀ (l : List SyncRecord) (db : DB),
    ((apply_list now db l).1).checkpoint = db.checkpoint := by
  intro l
  induction l with
  | nil => intro db; rfl
  | cons r rs ih =>
    intro db
    unfold apply_list
    rcases hA : apply_one now db r with ⟨dbA, oA⟩
    have hCk : dbA.checkpoint = db.checkpoint := by
      have := apply_one_checkpoint now db r
      rw [hA] at this
      exact this
    cases oA with
    | none => dsimp only; rw [ih dbA, hCk]
    | some e => dsimp only; exact hCk

/-- apply_remote_changes leaves the checkpoint alone. -/
theorem apply_remote_changes_checkpoint (now : Int) (db : DB)
    (records : List SyncRecord) :
    ((apply_remote_changes now db records).1).checkpoint = db.checkpoint := by
  unfold apply_remote_changes
  dsimp only
  rcases hU : apply_list now db
      (sort_upserts (records.filter (fun r => !r.deleted))) with ⟨db1, o1⟩
  have h1 : db1.checkpoint = db.checkpoint := by
    have := apply_list_checkpoint now
      (sort_upserts (records.filter (fun r => !r.deleted))) db
    rw [hU] at this
    exact this
  cases o1 with
  | none =>
    dsimp only
    rw [apply_list_checkpoint now
      (sort_tombstones (records.filter (fun r => r.deleted))) db1, h1]
  | some e => dsimp only; exact h1

/-- Marking one outbound record synced leaves the checkpoint alone. -/
theorem mark_one_synced_checkpoint (db : DB) (r : SyncRecord) (t : Int) :
    ((mark_one_synced db r t).1).checkpoint = db.checkpoint := by
  unfold mark_one_synced
  split
  · split <;> rfl
  · split <;> rfl

/-- Marking the outbound batch synced leaves the checkpoint alone. -/
theorem mark_records_synced_checkpoint :
    ∀ (records : List SyncRecord) (db : DB) (t : Int),
    ((mark_records_synced db records t).1).checkpoint = db.checkpoint := by
  intro records
  induction records with
  | nil => intro db t; rfl
  | cons r rs ih =>
    intro db t
    unfold mark_records_synced
    rcases hA : mark_one_synced db r t with ⟨dbA, oA⟩
    have hCk : dbA.checkpoint = db.checkpoint := by
      have := mark_one_synced_checkpoint db r t
      rw [hA] at this
      exact this
    cases oA with
    | none => dsimp only; rw [ih dbA t, hCk]
    | some e => dsimp only; exact hCk

/-! Claim C7: the checkpoint advances only on success. -/

/-- C7: a sync cycle that returns Err (in particular one in which
apply_remote_changes failed) never reaches db_save_checkpoint, so the
stored checkpoint is unchanged; and save is last-write-wins on the single
global row, so after save c1 then save c2 the getter returns c2. -/
theorem checkpoint_saved_only_on_success :
    (∀ (auth : Except String Unit)
       (exchange : List SyncRecord → Option (String × String) →
         Except String DeltaResponse)
       (startTime : Int) (db : DB) (e : String),
      (sync_now auth exchange startTime db).2 = Except.error e →
      db_get_checkpoint (sync_now auth exchange startTime db).1
        = db_get_checkpoint db) ∧
    (∀ (db : DB) (u1 i1 u2 i2 : String),
      db_get_checkpoint (db_save_checkpoint (db_save_checkpoint db u1 i1)
        u2 i2) = some (u2, i2)) := by
  constructor
  · intro auth exchange startTime db e h
    unfold sync_now at h ⊢
    cases auth with
    | error a => rfl
    | ok u =>
      dsimp only at h ⊢
      cases hex : exchange (collect_local_changes db)
          (db_get_checkpoint db) with
      | error a => rfl
      | ok response =>
        rw [hex] at h
        dsimp only at h ⊢
        split at h
        · rename_i d x1 x2 e2 hstep
          dsimp only [db_get_checkpoint]
          cases hp : response.push with
          | none => rw [hp] at hstep; cases hstep
          | some push =>
            rw [hp] at hstep
            rcases hm : mark_records_synced db (collect_local_changes db)
                startTime with ⟨dm, om⟩
            have hmc : dm.checkpoint = db.checkpoint := by
              have := mark_records_synced_checkpoint
                (collect_local_changes db) db startTime
              rw [hm] at this
              exact this
            rw [hm] at hstep
            cases om with
            | none => cases hstep
            | some e3 => cases hstep; exact hmc
        · rename_i d1 pushed conflicts hstep
          dsimp only [db_get_checkpoint]
          have hd1 : d1.checkpoint = db.checkpoint := by
            cases hp : response.push with
            | none => rw [hp] at hstep; cases hstep; rfl
            | some push =>
              rw [hp] at hstep
              rcases hm : mark_records_synced db (collect_local_changes db)
                  startTime with ⟨dm, om⟩
              have hmc : dm.checkpoint = db.checkpoint := by
                have := mark_records_synced_checkpoint
                  (collect_local_changes db) db startTime
                rw [hm] at this
                exact this
              rw [hm] at hstep
              cases om with
              | none => cases hstep; exact hmc
              | some e3 => cases hstep
          cases hpl : response.pull with
          | none => rw [hpl] at h; simp at h
          | some pull =>
            rw [hpl] at h
            dsimp only at h ⊢
            rcases ha : apply_remote_changes startTime d1 pull.records
                with ⟨d2, o2⟩
            have hd2 : d2.checkpoint = d1.checkpoint := by
              have := apply_remote_changes_checkpoint startTime d1
                pull.records
              rw [ha] at this
              exact this
            rw [ha] at h
            cases o2 with
            | none => simp at h
            | some e4 => dsimp only; rw [hd2, hd1]
  · intro db u1 i1 u2 i2
    rfl

/-- Witness for C7: a cycle whose pull apply fails on a concrete store
leaves the concrete checkpoint untouched, and two consecutive saves keep
the second. -/
theorem checkpoint_saved_only_on_success_witness :
    db_get_checkpoint (sync_now (Except.error "auth expired")
        (fun _ _ => Except.error "x") 2 dbTwoPortfolios).1
      = db_get_checkpoint dbTwoPortfolios ∧
    db_get_checkpoint (db_save_checkpoint
        (db_save_checkpoint emptyDB "t1" "i1") "t2" "i2") = some ("t2", "i2") :=
  ⟨checkpoint_saved_only_on_success.1 (Except.error "auth expired")
      (fun _ _ => Except.error "x") 2 dbTwoPortfolios "auth expired" rfl,
   checkpoint_saved_only_on_success.2 emptyDB "t1" "i1" "t2" "i2"⟩

/-- A fresh inbound coupon payment upsert whose parent reference is the
entry of `recEntryGood`. -/
def recPaymentGood : SyncRecord :=
  { table_name := "bond_coupon_payments", row_id := "c2",
    data := [("entrySyncUuid", JVal.jstr "e2"), ("paymentDate", JVal.jnum 2),
             ("amount", JVal.jnum 5), ("currency", JVal.jstr "USD"),
             ("createdAt", JVal.jnum 1)],
    version := 1, deleted := false }

/-! Success lemmas for the Apply Engine: the only Err sources of apply_one
are the two missing-parent-field checks, so a record that cannot fail
applies successfully in every store. -/

/-- A record with record_can_fail false applies without Err in any
store. -/
theorem apply_one_ok_of_cannot_fail (now : Int) (db : DB) (r : SyncRecord)
    (h : record_can_fail r = false) : (apply_one now db r).2 = none := by
  unfold record_can_fail at h
  unfold apply_one
  split
  · rename_i htab
    unfold apply_portfolio_change
    split
    · rfl
    · dsimp only
      split
      · rfl
      · rename_i hex
        have hfind : db.portfolios.find? (fun q => q.id == r.row_id)
            = none := by
          unfold get_portfolio at hex
          cases hf : db.portfolios.find? (fun q => q.id == r.row_id) with
          | none => rfl
          | some p => rw [hf] at hex; exact absurd rfl hex
        simp [create_portfolio, hfind]
  · rename_i htab
    unfold apply_entry_change
    split
    · rfl
    · rename_i hcond
      have hd : r.deleted = false := by
        cases hdel : r.deleted with
        | false => rfl
        | true => exact absurd hdel hcond
      dsimp only
      cases hval : (jget r.data "portfolioSyncUuid").asStr with
      | none =>
        exfalso
        rw [htab, hd, hval] at h
        simp at h
      | some pid =>
        dsimp only
        split
        · rfl
        · rename_i hex
          have hfind : db.entries.find? (fun q => q.id == r.row_id)
              = none := by
            unfold get_entry at hex
            cases hf : db.entries.find? (fun q => q.id == r.row_id) with
            | none => rfl
            | some q => rw [hf] at hex; exact absurd rfl hex
          simp [create_entry, hfind]
  · rename_i htab
    unfold apply_payment_change
    split
    · rfl
    · rename_i hcond
      have hd : r.deleted = false := by
        cases hdel : r.deleted with
        | false => rfl
        | true => exact absurd hdel hcond
      dsimp only
      cases hval : (jget r.data "entrySyncUuid").asStr with
      | none =>
        exfalso
        rw [htab, hd, hval] at h
        simp at h
      | some eid =>
        dsimp only
        split
        · rfl
        · rename_i hex
          exact absurd rfl hex
  · rfl

/-- A list of records none of which can fail applies without Err. -/
theorem apply_list_ok_of_cannot_fail (now : Int) :
    ∀ (l : List SyncRecord) (db : DB),
    (∀ r ∈ l, record_can_fail r = false) →
    (apply_list now db l).2 = none := by
  intro l
  induction l with
  | nil => intro db _; rfl
  | cons a l ih =>
    intro db hall
    unfold apply_list
    rcases hA : apply_one now db a with ⟨dbA, oA⟩
    have hnone : oA = none := by
      have := apply_one_ok_of_cannot_fail now db a
        (hall a (List.mem_cons_self a l))
      rw [hA] at this
      exact this
    cases hnone
    dsimp only
    exact ih dbA (fun r hr => hall r (List.mem_cons_of_mem a hr))

/-! Claim C5: batch order independence for a parent chain of fresh
upserts. -/

/-- C5: a batch holding a fresh portfolio P, an entry E whose parent
reference is P, and a payment C whose parent reference is E, all
non-deleted upserts, applies without Err in every array order of the
batch, and the upserts are reordered ascending by table precedence, so a
parent table record is applied before any child table record. -/
theorem apply_batch_success_any_order
    (now : Int) (db : DB) (P E C : SyncRecord) (l : List SyncRecord)
    (hPt : P.table_name = "portfolios") (hPd : P.deleted = false)
    (hPfresh : db.portfolios.all (fun q => !(q.id == P.row_id)) = true)
    (hEt : E.table_name = "portfolio_entries") (hEd : E.deleted = false)
    (hEpar : (jget E.data "portfolioSyncUuid") = JVal.jstr P.row_id)
    (hEfresh : db.entries.all (fun q => !(q.id == E.row_id)) = true)
    (hCt : C.table_name = "bond_coupon_payments") (hCd : C.deleted = false)
    (hCpar : (jget C.data "entrySyncUuid") = JVal.jstr E.row_id)
    (hl : l.Perm [P, E, C]) :
    (apply_remote_changes now db l).2 = none ∧
    (sort_upserts (l.filter (fun x => !x.deleted))).Pairwise
      (fun a b => upsert_key a ≤ upsert_key b) := by
  have hcf : ∀ r ∈ l, record_can_fail r = false := by
    intro r hr
    have hr3 : r ∈ [P, E, C] := (hl.mem_iff).mp hr
    simp only [List.mem_cons, List.not_mem_nil, or_false] at hr3
    rcases hr3 with hP | hE | hC
    · subst hP
      unfold record_can_fail
      rw [hPt, hPd]
      simp
    · subst hE
      unfold record_can_fail
      rw [hEt, hEd, hEpar]
      simp [JVal.asStr]
    · subst hC
      unfold record_can_fail
      rw [hCt, hCd, hCpar]
      simp [JVal.asStr]
  constructor
  · unfold apply_remote_changes
    dsimp only
    have htomb : l.filter (fun x => x.deleted) = [] := by
      rw [List.filter_eq_nil_iff]
      intro a ha
      have ha3 : a ∈ [P, E, C] := (hl.mem_iff).mp ha
      simp only [List.mem_cons, List.not_mem_nil, or_false] at ha3
      rcases ha3 with h1 | h1 | h1 <;> subst h1 <;>
        simp [hPd, hEd, hCd]
    have hup : ∀ r ∈ sort_upserts (l.filter (fun x => !x.deleted)),
        record_can_fail r = false := by
      intro r hr
      have : r ∈ l.filter (fun x => !x.deleted) := by
        have hperm := List.perm_insertionSort
          (fun a b => upsert_key a ≤ upsert_key b)
          (l.filter (fun x => !x.deleted))
        exact (hperm.mem_iff).mp hr
      exact hcf r (List.mem_of_mem_filter this)
    rcases hU : apply_list now db
        (sort_upserts (l.filter (fun x => !x.deleted))) with ⟨db1, o1⟩
    have ho1 : o1 = none := by
      have := apply_list_ok_of_cannot_fail now
        (sort_upserts (l.filter (fun x => !x.deleted))) db hup
      rw [hU] at this
      exact this
    subst ho1
    dsimp only
    rw [htomb]
    rfl
  · haveI : IsTotal SyncRecord (fun a b => upsert_key a ≤ upsert_key b) :=
      ⟨fun a b => Nat.le_total _ _⟩
    haveI : IsTrans SyncRecord (fun a b => upsert_key a ≤ upsert_key b) :=
      ⟨fun _ _ _ hab hbc => Nat.le_trans hab hbc⟩
    exact List.sorted_insertionSort _ _

/-- Witness for C5: the fully reversed batch (payment, entry, portfolio)
on the empty store. -/
theorem apply_batch_success_any_order_witness :
    (apply_remote_changes 7 emptyDB
        [recPaymentGood, recEntryGood, recPortfolio]).2 = none ∧
    (sort_upserts ([recPaymentGood, recEntryGood, recPortfolio].filter
        (fun x => !x.deleted))).Pairwise
      (fun a b => upsert_key a ≤ upsert_key b) :=
  apply_batch_success_any_order 7 emptyDB recPortfolio recEntryGood
    recPaymentGood [recPaymentGood, recEntryGood, recPortfolio]
    (by decide) (by decide) (by decide) (by decide) (by decide) (by decide)
    (by decide) (by decide) (by decide) (by decide)
    (List.reverse_perm [recPortfolio, recEntryGood, recPaymentGood])

/-! Claim C3: behaviour of the batch on a record whose parent field is
missing. -/

/-- The record loop applied to a split list: when every record of the
front succeeds and the next record fails, the loop returns that failure
and the records after it are never applied. -/
theorem apply_list_append_stops (now : Int) :
    ∀ (l1 : List SyncRecord) (db db1 db2 : DB) (l2 : List SyncRecord)
      (r : SyncRecord) (e : String),
    apply_list now db l1 = (db1, none) →
    apply_one now db1 r = (db2, some e) →
    apply_list now db (l1 ++ r :: l2) = (db2, some e) := by
  intro l1
  induction l1 with
  | nil =>
    intro db db1 db2 l2 r e h1 h2
    unfold apply_list at h1
    cases h1
    simp only [List.nil_append]
    unfold apply_list
    rw [h2]
  | cons a l1 ih =>
    intro db db1 db2 l2 r e h1 h2
    simp only [List.cons_append]
    unfold apply_list at h1 ⊢
    rcases hA : apply_one now db a with ⟨dbA, oA⟩
    rw [hA] at h1
    cases oA with
    | none =>
      dsimp only at h1 ⊢
      exact ih dbA db1 db2 l2 r e h1 h2
    | some e2 =>
      dsimp only at h1
      cases h1

/-- C3 counterexample: on the batch [entry with no parent field, valid
entry, portfolio] the Apply Engine aborts at the malformed entry, so the
valid entry e2 (sorted after it) is never inserted and the whole batch
returns Err, against the claim that only the single record fails and every
remaining record is still processed. -/
theorem apply_remote_changes_aborts_on_missing_parent :
    (apply_remote_changes 7 emptyDB
        [recEntryNoParentField, recEntryGood, recPortfolio]).2
      = some "Missing portfolioSyncUuid" ∧
    (apply_remote_changes 7 emptyDB
        [recEntryNoParentField, recEntryGood, recPortfolio]).1.entries
      = [] := by
  decide

/-- C3 amended: a record whose parent field cannot be resolved makes
apply_remote_changes stop at that record with its structured error; the
mutations of the records already applied are kept and the records sorted
after the failing one are not processed, so the batch as a whole returns
Err. -/
theorem apply_remote_changes_stops_at_first_failing_record
    (now : Int) (db db1 db2 : DB) (records l1 l2 : List SyncRecord)
    (r : SyncRecord) (e : String)
    (hsort : sort_upserts (records.filter (fun x => !x.deleted))
      = l1 ++ r :: l2)
    (h1 : apply_list now db l1 = (db1, none))
    (h2 : apply_one now db1 r = (db2, some e)) :
    apply_remote_changes now db records = (db2, some e) := by
  unfold apply_remote_changes
  dsimp only
  rw [hsort, apply_list_append_stops now l1 db db1 db2 l2 r e h1 h2]

/-- Witness for C3 amended: the concrete aborted batch, with the split of
its sorted upsert list made explicit. -/
theorem apply_remote_changes_stops_at_first_failing_record_witness :
    sort_upserts ([recEntryNoParentField, recEntryGood,
        recPortfolio].filter (fun x => !x.deleted))
      = [recPortfolio] ++ recEntryNoParentField :: [recEntryGood] ∧
    apply_list 7 emptyDB [recPortfolio] = (dbAfterPortfolio, none) ∧
    apply_one 7 dbAfterPortfolio recEntryNoParentField
      = (dbAfterPortfolio, some "Missing portfolioSyncUuid") ∧
    apply_remote_changes 7 emptyDB
        [recEntryNoParentField, recEntryGood, recPortfolio]
      = (dbAfterPortfolio, some "Missing portfolioSyncUuid") :=
  ⟨by decide, by decide, by decide,
   apply_remote_changes_stops_at_first_failing_record 7 emptyDB
     dbAfterPortfolio dbAfterPortfolio
     [recEntryNoParentField, recEntryGood, recPortfolio]
     [recPortfolio] [recEntryGood] recEntryNoParentField
     "Missing portfolioSyncUuid" (by decide) (by decide) (by decide)⟩

/-! Claim C1: idempotence of apply. -/

/-- C1: applying the same one-record batch twice is not idempotent.  The
first apply inserts the portfolio with sync_version 3 and synced_at 7; the
second apply finds the row and calls update_portfolio, whose UPDATE sets
synced_at = NULL and sync_version = sync_version + 1, so the store after
the second apply differs from the store after the first. -/
theorem apply_remote_changes_twice_not_idempotent :
    apply_remote_changes 7 emptyDB [recPortfolio]
      = (dbAfterPortfolio, none) ∧
    (apply_remote_changes 7 dbAfterPortfolio [recPortfolio]).2 = none ∧
    (apply_remote_changes 7 dbAfterPortfolio [recPortfolio]).1
      ≠ dbAfterPortfolio ∧
    ((apply_remote_changes 7 dbAfterPortfolio
        [recPortfolio]).1.portfolios.map
        (fun p => (p.sync_version, p.synced_at))) = [(4, none)] ∧
    (dbAfterPortfolio.portfolios.map
        (fun p => (p.sync_version, p.synced_at))) = [(3, some 7)] := by
  decide

/-! Claim C2: the per-record upsert contract. -/

/-- C2: two divergences from the claimed upsert contract.  A fresh inbound
payment is never inserted: the existence probe list_coupon_payments(row_id)
succeeds for every id, so the code always takes the UPDATE branch, which
matches zero rows, returns Ok and leaves the store unchanged.  And the
update-in-place branch of an existing portfolio stores synced_at = NULL
and sync_version = old + 1 instead of synced_at = now and sync_version =
the server version 9 of the record. -/
theorem apply_upsert_contract_divergences :
    (apply_remote_changes 7 dbWithEntryE1 [recPaymentC1]).1
      = dbWithEntryE1 ∧
    (apply_remote_changes 7 dbWithEntryE1 [recPaymentC1]).2 = none ∧
    ((apply_remote_changes 7 dbWithEntryE1 [recPaymentC1]).1.payments.find?
        (fun c => c.id == "c1")) = none ∧
    (apply_remote_changes 7 dbWithPortfolioSynced [recPortfolioV9]).2
      = none ∧
    ((apply_remote_changes 7 dbWithPortfolioSynced
        [recPortfolioV9]).1.portfolios.map
        (fun p => (p.name, p.sync_version, p.synced_at)))
      = [("New", 2, none)] := by
  decide

/-! Counting infrastructure for the Change Collector (claim C4). -/

/-- Pointwise equal predicates count equally. -/
theorem countP_ext {α : Type} (p q : α → Bool) (l : List α)
    (h : ∀ a, p a = q a) : l.countP p = l.countP q := by
  have hpq : p = q := funext h
  rw [hpq]

/-- Splitting a count along a second predicate. -/
theorem countP_split {α : Type} (b c : α → Bool) (l : List α) :
    l.countP c = l.countP (fun x => b x && c x)
      + l.countP (fun x => !b x && c x) := by
  induction l with
  | nil => rfl
  | cons a l ih =>
    simp only [List.countP_cons]
    cases hb : b a <;> cases hc : c a <;> simp [hb, hc] <;> omega

/-- In a list whose keys are distinct, the count of elements sharing the
key of a member x and satisfying P is one when P x holds and zero
otherwise. -/
theorem countP_key_unique {α : Type} (key : α → String) (P : α → Bool) :
    ∀ (l : List α) (x : α), (l.map key).Nodup → x ∈ l →
    l.countP (fun y => key y == key x && P y) = if P x then 1 else 0 := by
  intro l
  induction l with
  | nil => intro x _ hx; cases hx
  | cons a l ih =>
    intro x hnd hx
    rw [List.map_cons, List.nodup_cons] at hnd
    rcases hnd with ⟨hka, hnd⟩
    rw [List.countP_cons]
    rcases List.mem_cons.mp hx with hxa | hxl
    · subst hxa
      have hzero : l.countP (fun y => key y == key x && P y) = 0 := by
        rw [List.countP_eq_zero]
        intro y hy
        have hne : key y ≠ key x := by
          intro he
          exact hka (he ▸ List.mem_map_of_mem key hy)
        simp [hne]
      rw [hzero]
      cases hP : P x <;> simp [hP]
    · have hne : key a ≠ key x := by
        intro he
        exact hka (he ▸ List.mem_map_of_mem key hxl)
      have hfalse : (key a == key x && P a) = false := by
        simp [hne]
      rw [ih x hnd hxl, hfalse]
      simp

/-- Counting over a flat map is the sum of the per-element counts. -/
theorem countP_flatMap {α β : Type} (p : β → Bool) (f : α → List β) :
    ∀ l : List α,
    (l.flatMap f).countP p = (l.map (fun a => (f a).countP p)).sum := by
  intro l
  induction l with
  | nil => rfl
  | cons a l ih => simp [List.flatMap_cons, List.countP_append, ih]

/-- A flat map counts zero when every block counts zero. -/
theorem countP_flatMap_zero {α β : Type} (p : β → Bool) (f : α → List β)
    (l : List α) (h : ∀ a ∈ l, (f a).countP p = 0) :
    (l.flatMap f).countP p = 0 := by
  rw [countP_flatMap]
  apply List.sum_eq_zero
  intro m hm
  rcases List.mem_map.mp hm with ⟨a, ha, rfl⟩
  exact h a ha

/-- Summing a function over a list with distinct keys where every element
other than x contributes zero gives the contribution of x. -/
theorem map_sum_single {α : Type} (key : α → String) (g : α → Nat) :
    ∀ (l : List α) (x : α), (l.map key).Nodup → x ∈ l →
    (∀ y ∈ l, key y ≠ key x → g y = 0) →
    (l.map g).sum = g x := by
  intro l
  induction l with
  | nil => intro x _ hx; cases hx
  | cons a l ih =>
    intro x hnd hx hz
    rw [List.map_cons, List.nodup_cons] at hnd
    rcases hnd with ⟨hka, hnd⟩
    rw [List.map_cons, List.sum_cons]
    rcases List.mem_cons.mp hx with hxa | hxl
    · subst hxa
      have hrest : (l.map g).sum = 0 := by
        apply List.sum_eq_zero
        intro m hm
        rcases List.mem_map.mp hm with ⟨y, hy, rfl⟩
        refine hz y (List.mem_cons_of_mem _ hy) ?_
        intro he
        exact hka (he ▸ List.mem_map_of_mem key hy)
      rw [hrest]
      omega
    · have hga : g a = 0 := by
        refine hz a (List.mem_cons_self _ _) ?_
        intro he
        exact hka (he ▸ List.mem_map_of_mem key hxl)
      rw [hga, ih x hnd hxl
        (fun y hy hne => hz y (List.mem_cons_of_mem _ hy) hne)]
      omega

/-- A mapped segment whose table name differs from the counted table
contributes nothing. -/
theorem countP_map_table_zero {α : Type} (t id tn : String)
    (h : (tn == t) = false) (mk : α → SyncRecord) (l : List α)
    (hmk : ∀ a, (mk a).table_name = tn) :
    (l.map mk).countP (fun r => r.table_name == t && r.row_id == id)
      = 0 := by
  rw [List.countP_map, List.countP_eq_zero]
  intro a _
  simp [Function.comp, hmk a, h]

/-- A mapped segment whose table name is the counted table counts its
underlying rows by id. -/
theorem countP_map_table_eq {α : Type} (t id : String)
    (mk : α → SyncRecord) (key : α → String) (l : List α)
    (hmt : ∀ a, (mk a).table_name = t)
    (hmi : ∀ a, (mk a).row_id = key a) :
    (l.map mk).countP (fun r => r.table_name == t && r.row_id == id)
      = l.countP (fun a => key a == id) := by
  rw [List.countP_map]
  refine countP_ext _ _ _ ?_
  intro a
  simp [Function.comp, hmt a, hmi a]

/-- Summing the constant one over a list gives its length. -/
theorem sum_map_one {α : Type} :
    ∀ l : List α, (l.map (fun _ => (1 : Nat))).sum = l.length := by
  intro l
  induction l with
  | nil => rfl
  | cons a l ih => simp [ih]; omega

/-- Two members of a list with distinct keys that share a key are
equal. -/
theorem eq_of_key_nodup {α : Type} (key : α → String) :
    ∀ (l : List α), (l.map key).Nodup →
    ∀ x y : α, x ∈ l → y ∈ l → key x = key y → x = y := by
  intro l
  induction l with
  | nil => intro _ x y hx; cases hx
  | cons a l ih =>
    intro hnd x y hx hy hk
    rw [List.map_cons, List.nodup_cons] at hnd
    rcases hnd with ⟨hka, hnd⟩
    rcases List.mem_cons.mp hx with hxa | hxl <;>
      rcases List.mem_cons.mp hy with hya | hyl
    · rw [hxa, hya]
    · subst hxa
      exact absurd (hk ▸ List.mem_map_of_mem key hyl) hka
    · subst hya
      exact absurd (hk ▸ List.mem_map_of_mem key hxl) hka
    · exact ih hnd x y hxl hyl hk

/-- countP_key_unique with the value of the extra predicate computed. -/
theorem countP_key_val {α : Type} (key : α → String) (P : α → Bool)
    (l : List α) (x : α) (hnd : (l.map key).Nodup) (hx : x ∈ l)
    (v : Bool) (hv : P x = v) :
    l.countP (fun y => key y == key x && P y) = if v then 1 else 0 := by
  rw [countP_key_unique key P l x hnd hx, hv]

/-- The per-entry payment segment holds only bond_coupon_payments
records. -/
theorem collect_entry_payments_count_other (db : DB) (e : EntryRow)
    (t id : String) (h : ("bond_coupon_payments" == t) = false) :
    (collect_entry_payments db e).countP
      (fun r => r.table_name == t && r.row_id == id) = 0 := by
  unfold collect_entry_payments
  exact countP_map_table_zero t id "bond_coupon_payments" h _ _
    (fun a => rfl)

/-- A per-portfolio block holds no portfolios records. -/
theorem collect_portfolio_block_count_portfolios (db : DB)
    (q : PortfolioRow) (id : String) :
    (collect_portfolio_block db q).countP
      (fun r => r.table_name == "portfolios" && r.row_id == id) = 0 := by
  unfold collect_portfolio_block
  rw [List.countP_append, List.countP_append]
  rw [countP_map_table_zero "portfolios" id "portfolio_entries" (by decide)
    _ _ (fun a => rfl)]
  rw [countP_map_table_zero "portfolios" id "bond_coupon_payments"
    (by decide) _ _ (fun a => rfl)]
  rw [countP_flatMap_zero _ _ _
    (fun e _ => collect_entry_payments_count_other db e "portfolios" id
      (by decide))]

/-- The portfolio_entries count of a per-portfolio block, expressed over
the raw entries table. -/
theorem collect_portfolio_block_count_entries (db : DB) (q : PortfolioRow)
    (id : String) :
    (collect_portfolio_block db q).countP
      (fun r => r.table_name == "portfolio_entries" && r.row_id == id)
      = db.entries.countP (fun x => ((x.id == id) && x.synced_at.isNone)
          && (x.portfolio_id == q.id && !x.deleted)) := by
  unfold collect_portfolio_block
  rw [List.countP_append, List.countP_append]
  rw [countP_map_table_eq "portfolio_entries" id _ (fun e => e.id) _
    (fun a => rfl) (fun a => rfl)]
  rw [countP_map_table_zero "portfolio_entries" id "bond_coupon_payments"
    (by decide) _ _ (fun a => rfl)]
  rw [countP_flatMap_zero _ _ _
    (fun e _ => collect_entry_payments_count_other db e "portfolio_entries"
      id (by decide))]
  unfold list_entries
  rw [List.countP_filter, List.countP_filter]
  omega

/-- The bond_coupon_payments count of a per-portfolio block: one count
from the (portfolio-independent) deleted payments query plus the dirty
active payments of each active entry of the portfolio. -/
theorem collect_portfolio_block_count_payments (db : DB) (q : PortfolioRow)
    (id : String) :
    (collect_portfolio_block db q).countP
      (fun r => r.table_name == "bond_coupon_payments" && r.row_id == id)
      = db.payments.countP (fun x => (x.id == id)
          && (x.deleted && x.synced_at.isNone))
        + ((list_entries db q.id).map (fun e =>
            db.payments.countP (fun x => ((x.id == id) && x.synced_at.isNone)
              && (x.entry_id == e.id && !x.deleted)))).sum := by
  unfold collect_portfolio_block
  rw [List.countP_append, List.countP_append]
  rw [countP_map_table_zero "bond_coupon_payments" id "portfolio_entries"
    (by decide) _ _ (fun a => rfl)]
  rw [countP_map_table_eq "bond_coupon_payments" id _ (fun c => c.id) _
    (fun a => rfl) (fun a => rfl)]
  rw [countP_flatMap]
  unfold query_deleted_payments
  rw [List.countP_filter]
  have hfun : (fun e => (collect_entry_payments db e).countP
        (fun r => r.table_name == "bond_coupon_payments" && r.row_id == id))
      = (fun e => db.payments.countP
          (fun x => ((x.id == id) && x.synced_at.isNone)
            && (x.entry_id == e.id && !x.deleted))) := by
    funext e
    unfold collect_entry_payments
    rw [countP_map_table_eq "bond_coupon_payments" id _ (fun c => c.id) _
      (fun a => rfl) (fun a => rfl)]
    rw [List.countP_filter, List.countP_filter]
  rw [hfun]
  omega

/-- Distinct keys survive filtering. -/
theorem nodup_key_filter {α : Type} (key : α → String) (p : α → Bool)
    (l : List α) (h : (l.map key).Nodup) :
    ((l.filter p).map key).Nodup := by
  have hsub : (l.filter p).Sublist l := List.filter_sublist l
  exact List.Nodup.sublist (hsub.map key) h

/-- Every dirty portfolio row, active or soft-deleted, is collected
exactly once. -/
theorem collect_count_dirty_portfolio (db : DB) (p : PortfolioRow)
    (hnd : (db.portfolios.map (fun q => q.id)).Nodup)
    (hp : p ∈ db.portfolios) (hdirty : p.synced_at = none) :
    rec_count (collect_local_changes db) "portfolios" p.id = 1 := by
  have hS1 : ((query_deleted_portfolios db).map
        (fun x => tombstone "portfolios" x.id x.sync_version)).countP
        (fun r => r.table_name == "portfolios" && r.row_id == p.id)
      = db.portfolios.countP
        (fun y => y.deleted && (y.id == p.id && y.synced_at.isNone)) := by
    rw [countP_map_table_eq "portfolios" p.id _ (fun q => q.id) _
      (fun a => rfl) (fun a => rfl)]
    unfold query_deleted_portfolios
    rw [List.countP_filter]
    exact countP_ext _ _ _ (fun a => by
      cases h1 : a.deleted <;> cases h2 : (a.id == p.id) <;>
        cases h3 : a.synced_at.isNone <;> simp [h1, h2, h3])
  have hS2 : (((list_portfolios db).filter
        (fun x => x.synced_at.isNone)).map
        (fun x => portfolio_to_sync_record x false)).countP
        (fun r => r.table_name == "portfolios" && r.row_id == p.id)
      = db.portfolios.countP
        (fun y => !y.deleted && (y.id == p.id && y.synced_at.isNone)) := by
    rw [countP_map_table_eq "portfolios" p.id _ (fun q => q.id) _
      (fun a => rfl) (fun a => rfl)]
    unfold list_portfolios
    rw [List.countP_filter, List.countP_filter]
    exact countP_ext _ _ _ (fun a => by
      cases h1 : a.deleted <;> cases h2 : (a.id == p.id) <;>
        cases h3 : a.synced_at.isNone <;> simp [h1, h2, h3])
  have hS3 : ((query_deleted_entries db).map
        (fun x => tombstone "portfolio_entries" x.id x.sync_version)).countP
        (fun r => r.table_name == "portfolios" && r.row_id == p.id) = 0 :=
    countP_map_table_zero "portfolios" p.id "portfolio_entries" (by decide)
      _ _ (fun a => rfl)
  have hS4 : ((list_portfolios db).flatMap
        (collect_portfolio_block db)).countP
        (fun r => r.table_name == "portfolios" && r.row_id == p.id) = 0 :=
    countP_flatMap_zero _ _ _
      (fun q _ => collect_portfolio_block_count_portfolios db q p.id)
  have hkey : db.portfolios.countP
      (fun y => y.id == p.id && y.synced_at.isNone) = 1 := by
    have h := countP_key_val (fun q : PortfolioRow => q.id)
      (fun q => q.synced_at.isNone) db.portfolios p hnd hp true
      (by simp [hdirty])
    simpa using h
  have hsplit : db.portfolios.countP
        (fun y => y.id == p.id && y.synced_at.isNone)
      = db.portfolios.countP
          (fun y => y.deleted && (y.id == p.id && y.synced_at.isNone))
        + db.portfolios.countP
          (fun y => !y.deleted && (y.id == p.id && y.synced_at.isNone)) :=
    countP_split (fun q => q.deleted)
      (fun y => y.id == p.id && y.synced_at.isNone) db.portfolios
  unfold rec_count collect_local_changes
  rw [List.countP_append, List.countP_append, List.countP_append,
    hS1, hS2, hS3, hS4]
  omega

/-- Every dirty soft-deleted entry row is collected exactly once (by the
global deleted-entries query). -/
theorem collect_count_deleted_entry (db : DB) (e : EntryRow)
    (hnde : (db.entries.map (fun q => q.id)).Nodup)
    (he : e ∈ db.entries) (hdel : e.deleted = true)
    (hdirty : e.synced_at = none) :
    rec_count (collect_local_changes db) "portfolio_entries" e.id = 1 := by
  have hS1 : ((query_deleted_portfolios db).map
        (fun x => tombstone "portfolios" x.id x.sync_version)).countP
        (fun r => r.table_name == "portfolio_entries" && r.row_id == e.id)
      = 0 :=
    countP_map_table_zero "portfolio_entries" e.id "portfolios" (by decide)
      _ _ (fun a => rfl)
  have hS2 : (((list_portfolios db).filter
        (fun x => x.synced_at.isNone)).map
        (fun x => portfolio_to_sync_record x false)).countP
        (fun r => r.table_name == "portfolio_entries" && r.row_id == e.id)
      = 0 :=
    countP_map_table_zero "portfolio_entries" e.id "portfolios" (by decide)
      _ _ (fun a => rfl)
  have hS3 : ((query_deleted_entries db).map
        (fun x => tombstone "portfolio_entries" x.id x.sync_version)).countP
        (fun r => r.table_name == "portfolio_entries" && r.row_id == e.id)
      = db.entries.countP
        (fun y => y.id == e.id && (y.deleted && y.synced_at.isNone)) := by
    rw [countP_map_table_eq "portfolio_entries" e.id _ (fun q => q.id) _
      (fun a => rfl) (fun a => rfl)]
    unfold query_deleted_entries
    rw [List.countP_filter]
  have hS3val : db.entries.countP
      (fun y => y.id == e.id && (y.deleted && y.synced_at.isNone)) = 1 := by
    have h := countP_key_val (fun q : EntryRow => q.id)
      (fun q => q.deleted && q.synced_at.isNone) db.entries e hnde he true
      (by simp [hdel, hdirty])
    simpa using h
  have hS4 : ((list_portfolios db).flatMap
        (collect_portfolio_block db)).countP
        (fun r => r.table_name == "portfolio_entries" && r.row_id == e.id)
      = 0 := by
    apply countP_flatMap_zero
    intro q _
    rw [collect_portfolio_block_count_entries db q e.id]
    have hext : db.entries.countP
        (fun x => ((x.id == e.id) && x.synced_at.isNone)
          && (x.portfolio_id == q.id && !x.deleted))
        = db.entries.countP (fun x => (x.id == e.id)
          && (x.synced_at.isNone && (x.portfolio_id == q.id && !x.deleted)))
      := countP_ext _ _ _ (fun a => by rw [Bool.and_assoc])
    rw [hext]
    have h := countP_key_val (fun x : EntryRow => x.id)
      (fun x => x.synced_at.isNone && (x.portfolio_id == q.id && !x.deleted))
      db.entries e hnde he false (by simp [hdel])
    simpa using h
  unfold rec_count collect_local_changes
  rw [List.countP_append, List.countP_append, List.countP_append,
    hS1, hS2, hS3, hS4, hS3val]

/-- Every dirty active entry row whose parent portfolio is present and
active is collected exactly once (inside that parent's loop block). -/
theorem collect_count_active_entry (db : DB) (e : EntryRow)
    (p0 : PortfolioRow)
    (hndp : (db.portfolios.map (fun q => q.id)).Nodup)
    (hnde : (db.entries.map (fun q => q.id)).Nodup)
    (he : e ∈ db.entries) (hact : e.deleted = false)
    (hdirty : e.synced_at = none)
    (hp0 : p0 ∈ db.portfolios) (hp0act : p0.deleted = false)
    (hp0id : p0.id = e.portfolio_id) :
    rec_count (collect_local_changes db) "portfolio_entries" e.id = 1 := by
  have hS1 : ((query_deleted_portfolios db).map
        (fun x => tombstone "portfolios" x.id x.sync_version)).countP
        (fun r => r.table_name == "portfolio_entries" && r.row_id == e.id)
      = 0 :=
    countP_map_table_zero "portfolio_entries" e.id "portfolios" (by decide)
      _ _ (fun a => rfl)
  have hS2 : (((list_portfolios db).filter
        (fun x => x.synced_at.isNone)).map
        (fun x => portfolio_to_sync_record x false)).countP
        (fun r => r.table_name == "portfolio_entries" && r.row_id == e.id)
      = 0 :=
    countP_map_table_zero "portfolio_entries" e.id "portfolios" (by decide)
      _ _ (fun a => rfl)
  have hS3 : ((query_deleted_entries db).map
        (fun x => tombstone "portfolio_entries" x.id x.sync_version)).countP
        (fun r => r.table_name == "portfolio_entries" && r.row_id == e.id)
      = 0 := by
    rw [countP_map_table_eq "portfolio_entries" e.id _ (fun q => q.id) _
      (fun a => rfl) (fun a => rfl)]
    unfold query_deleted_entries
    rw [List.countP_filter]
    have h := countP_key_val (fun q : EntryRow => q.id)
      (fun q => q.deleted && q.synced_at.isNone) db.entries e hnde he false
      (by simp [hact])
    simpa using h
  have hblock : ∀ q : PortfolioRow,
      (collect_portfolio_block db q).countP
        (fun r => r.table_name == "portfolio_entries" && r.row_id == e.id)
      = if (e.portfolio_id == q.id) = true then 1 else 0 := by
    intro q
    rw [collect_portfolio_block_count_entries db q e.id]
    have hext : db.entries.countP
        (fun x => ((x.id == e.id) && x.synced_at.isNone)
          && (x.portfolio_id == q.id && !x.deleted))
        = db.entries.countP (fun x => (x.id == e.id)
          && (x.synced_at.isNone && (x.portfolio_id == q.id && !x.deleted)))
      := countP_ext _ _ _ (fun a => by rw [Bool.and_assoc])
    rw [hext]
    have h := countP_key_val (fun x : EntryRow => x.id)
      (fun x => x.synced_at.isNone && (x.portfolio_id == q.id && !x.deleted))
      db.entries e hnde he (e.portfolio_id == q.id)
      (by simp [hact, hdirty])
    simpa using h
  have hS4 : ((list_portfolios db).flatMap
        (collect_portfolio_block db)).countP
        (fun r => r.table_name == "portfolio_entries" && r.row_id == e.id)
      = 1 := by
    rw [countP_flatMap]
    have hfun : (fun q => (collect_portfolio_block db q).countP
          (fun r => r.table_name == "portfolio_entries" && r.row_id == e.id))
        = (fun q : PortfolioRow =>
            if (e.portfolio_id == q.id) = true then 1 else 0) :=
      funext hblock
    rw [hfun]
    have hsum := map_sum_single (fun q : PortfolioRow => q.id)
      (fun q => if (e.portfolio_id == q.id) = true then 1 else 0)
      (list_portfolios db) p0
      (nodup_key_filter _ _ _ hndp)
      (List.mem_filter.mpr ⟨hp0, by simp [hp0act]⟩)
      (fun y _ hne => by
        have : (e.portfolio_id == y.id) = false := by
          rw [← hp0id] at *
          exact beq_eq_false_iff_ne.mpr (fun hh => hne hh.symm)
        simp [this])
    rw [hsum, ← hp0id]
    simp
  unfold rec_count collect_local_changes
  rw [List.countP_append, List.countP_append, List.countP_append,
    hS1, hS2, hS3, hS4]

/-- Every dirty soft-deleted payment row is collected once per active
portfolio: the deleted-payments query ignores its argument and runs inside
the per-portfolio loop. -/
theorem collect_count_deleted_payment (db : DB) (c : PaymentRow)
    (hndc : (db.payments.map (fun q => q.id)).Nodup)
    (hc : c ∈ db.payments) (hdel : c.deleted = true)
    (hdirty : c.synced_at = none) :
    rec_count (collect_local_changes db) "bond_coupon_payments" c.id
      = (list_portfolios db).length := by
  have hS1 : ((query_deleted_portfolios db).map
        (fun x => tombstone "portfolios" x.id x.sync_version)).countP
        (fun r => r.table_name == "bond_coupon_payments" && r.row_id == c.id)
      = 0 :=
    countP_map_table_zero "bond_coupon_payments" c.id "portfolios"
      (by decide) _ _ (fun a => rfl)
  have hS2 : (((list_portfolios db).filter
        (fun x => x.synced_at.isNone)).map
        (fun x => portfolio_to_sync_record x false)).countP
        (fun r => r.table_name == "bond_coupon_payments" && r.row_id == c.id)
      = 0 :=
    countP_map_table_zero "bond_coupon_payments" c.id "portfolios"
      (by decide) _ _ (fun a => rfl)
  have hS3 : ((query_deleted_entries db).map
        (fun x => tombstone "portfolio_entries" x.id x.sync_version)).countP
        (fun r => r.table_name == "bond_coupon_payments" && r.row_id == c.id)
      = 0 :=
    countP_map_table_zero "bond_coupon_payments" c.id "portfolio_entries"
      (by decide) _ _ (fun a => rfl)
  have hblock : ∀ q : PortfolioRow,
      (collect_portfolio_block db q).countP
        (fun r => r.table_name == "bond_coupon_payments" && r.row_id == c.id)
      = 1 := by
    intro q
    rw [collect_portfolio_block_count_payments db q c.id]
    have hB : db.payments.countP
        (fun x => (x.id == c.id) && (x.deleted && x.synced_at.isNone))
        = 1 := by
      have h := countP_key_val (fun x : PaymentRow => x.id)
        (fun x => x.deleted && x.synced_at.isNone) db.payments c hndc hc
        true (by simp [hdel, hdirty])
      simpa using h
    have hC : ((list_entries db q.id).map (fun e =>
        db.payments.countP (fun x => ((x.id == c.id) && x.synced_at.isNone)
          && (x.entry_id == e.id && !x.deleted)))).sum = 0 := by
      apply List.sum_eq_zero
      intro m hm
      rcases List.mem_map.mp hm with ⟨e2, _, rfl⟩
      have hext : db.payments.countP
          (fun x => ((x.id == c.id) && x.synced_at.isNone)
            && (x.entry_id == e2.id && !x.deleted))
          = db.payments.countP (fun x => (x.id == c.id)
            && (x.synced_at.isNone && (x.entry_id == e2.id && !x.deleted)))
        := countP_ext _ _ _ (fun a => by rw [Bool.and_assoc])
      rw [hext]
      have h := countP_key_val (fun x : PaymentRow => x.id)
        (fun x => x.synced_at.isNone && (x.entry_id == e2.id && !x.deleted))
        db.payments c hndc hc false (by simp [hdel])
      simpa using h
    rw [hB, hC]
  have hS4 : ((list_portfolios db).flatMap
        (collect_portfolio_block db)).countP
        (fun r => r.table_name == "bond_coupon_payments" && r.row_id == c.id)
      = (list_portfolios db).length := by
    rw [countP_flatMap]
    have hfun : (fun q => (collect_portfolio_block db q).countP
          (fun r => r.table_name == "bond_coupon_payments"
            && r.row_id == c.id))
        = (fun _ : PortfolioRow => (1 : Nat)) := funext hblock
    rw [hfun, sum_map_one]
  unfold rec_count collect_local_changes
  rw [List.countP_append, List.countP_append, List.countP_append,
    hS1, hS2, hS3, hS4]
  omega

/-- Every dirty active payment row whose parent entry is present and
active under a present active portfolio is collected exactly once. -/
theorem collect_count_active_payment (db : DB) (c : PaymentRow)
    (e0 : EntryRow) (p0 : PortfolioRow)
    (hndp : (db.portfolios.map (fun q => q.id)).Nodup)
    (hnde : (db.entries.map (fun q => q.id)).Nodup)
    (hndc : (db.payments.map (fun q => q.id)).Nodup)
    (hc : c ∈ db.payments) (hact : c.deleted = false)
    (hdirty : c.synced_at = none)
    (he0 : e0 ∈ db.entries) (he0act : e0.deleted = false)
    (he0id : e0.id = c.entry_id)
    (hp0 : p0 ∈ db.portfolios) (hp0act : p0.deleted = false)
    (hp0id : p0.id = e0.portfolio_id) :
    rec_count (collect_local_changes db) "bond_coupon_payments" c.id
      = 1 := by
  have hS1 : ((query_deleted_portfolios db).map
        (fun x => tombstone "portfolios" x.id x.sync_version)).countP
        (fun r => r.table_name == "bond_coupon_payments" && r.row_id == c.id)
      = 0 :=
    countP_map_table_zero "bond_coupon_payments" c.id "portfolios"
      (by decide) _ _ (fun a => rfl)
  have hS2 : (((list_portfolios db).filter
        (fun x => x.synced_at.isNone)).map
        (fun x => portfolio_to_sync_record x false)).countP
        (fun r => r.table_name == "bond_coupon_payments" && r.row_id == c.id)
      = 0 :=
    countP_map_table_zero "bond_coupon_payments" c.id "portfolios"
      (by decide) _ _ (fun a => rfl)
  have hS3 : ((query_deleted_entries db).map
        (fun x => tombstone "portfolio_entries" x.id x.sync_version)).countP
        (fun r => r.table_name == "bond_coupon_payments" && r.row_id == c.id)
      = 0 :=
    countP_map_table_zero "bond_coupon_payments" c.id "portfolio_entries"
      (by decide) _ _ (fun a => rfl)
  have hinner : ∀ e2 : EntryRow,
      db.payments.countP (fun x => ((x.id == c.id) && x.synced_at.isNone)
        && (x.entry_id == e2.id && !x.deleted))
      = if (c.entry_id == e2.id) = true then 1 else 0 := by
    intro e2
    have hext : db.payments.countP
        (fun x => ((x.id == c.id) && x.synced_at.isNone)
          && (x.entry_id == e2.id && !x.deleted))
        = db.payments.countP (fun x => (x.id == c.id)
          && (x.synced_at.isNone && (x.entry_id == e2.id && !x.deleted)))
      := countP_ext _ _ _ (fun a => by rw [Bool.and_assoc])
    rw [hext]
    have h := countP_key_val (fun x : PaymentRow => x.id)
      (fun x => x.synced_at.isNone && (x.entry_id == e2.id && !x.deleted))
      db.payments c hndc hc (c.entry_id == e2.id)
      (by simp [hact, hdirty])
    simpa using h
  have hblock : ∀ q : PortfolioRow,
      (collect_portfolio_block db q).countP
        (fun r => r.table_name == "bond_coupon_payments" && r.row_id == c.id)
      = if (e0.portfolio_id == q.id) = true then 1 else 0 := by
    intro q
    rw [collect_portfolio_block_count_payments db q c.id]
    have hB : db.payments.countP
        (fun x => (x.id == c.id) && (x.deleted && x.synced_at.isNone))
        = 0 := by
      have h := countP_key_val (fun x : PaymentRow => x.id)
        (fun x => x.deleted && x.synced_at.isNone) db.payments c hndc hc
        false (by simp [hact])
      simpa using h
    have hfun : (fun e2 => db.payments.countP
          (fun x => ((x.id == c.id) && x.synced_at.isNone)
            && (x.entry_id == e2.id && !x.deleted)))
        = (fun e2 : EntryRow =>
            if (c.entry_id == e2.id) = true then 1 else 0) := funext hinner
    rw [hB, hfun]
    by_cases hq : e0.portfolio_id = q.id
    · have hsum := map_sum_single (fun x : EntryRow => x.id)
        (fun e2 => if (c.entry_id == e2.id) = true then 1 else 0)
        (list_entries db q.id) e0
        (nodup_key_filter _ _ _ hnde)
        (List.mem_filter.mpr ⟨he0, by simp [hq, he0act]⟩)
        (fun y _ hne => by
          have hfalse : (c.entry_id == y.id) = false := by
            rw [← he0id]
            exact beq_eq_false_iff_ne.mpr (fun hh => hne hh.symm)
          simp [hfalse])
      rw [hsum, ← he0id]
      simp [hq]
    · have hzero : ((list_entries db q.id).map
          (fun e2 : EntryRow =>
            if (c.entry_id == e2.id) = true then 1 else 0)).sum = 0 := by
        apply List.sum_eq_zero
        intro m hm
        rcases List.mem_map.mp hm with ⟨e2, he2, rfl⟩
        rcases List.mem_filter.mp he2 with ⟨he2mem, he2pred⟩
        simp only [Bool.and_eq_true] at he2pred
        rcases he2pred with ⟨he2pid, _⟩
        cases hbeq : (c.entry_id == e2.id) with
        | false => simp [hbeq]
        | true =>
          exfalso
          have he2eq : e2 = e0 := eq_of_key_nodup (fun x : EntryRow => x.id)
            db.entries hnde e2 e0 he2mem he0
            (by show e2.id = e0.id
                rw [he0id]
                exact ((beq_iff_eq).mp hbeq).symm)
          apply hq
          rw [← (beq_iff_eq).mp he2pid, he2eq]
      rw [hzero]
      have hqfalse : (e0.portfolio_id == q.id) = false :=
        beq_eq_false_iff_ne.mpr hq
      simp [hqfalse]
  have hS4 : ((list_portfolios db).flatMap
        (collect_portfolio_block db)).countP
        (fun r => r.table_name == "bond_coupon_payments" && r.row_id == c.id)
      = 1 := by
    rw [countP_flatMap]
    have hfun : (fun q => (collect_portfolio_block db q).countP
          (fun r => r.table_name == "bond_coupon_payments"
            && r.row_id == c.id))
        = (fun q : PortfolioRow =>
            if (e0.portfolio_id == q.id) = true then 1 else 0) :=
      funext hblock
    rw [hfun]
    have hsum := map_sum_single (fun q : PortfolioRow => q.id)
      (fun q => if (e0.portfolio_id == q.id) = true then 1 else 0)
      (list_portfolios db) p0
      (nodup_key_filter _ _ _ hndp)
      (List.mem_filter.mpr ⟨hp0, by simp [hp0act]⟩)
      (fun y _ hne => by
        have hfalse : (e0.portfolio_id == y.id) = false := by
          rw [← hp0id]
          exact beq_eq_false_iff_ne.mpr (fun hh => hne hh.symm)
        simp [hfalse])
    rw [hsum, ← hp0id]
    simp
  unfold rec_count collect_local_changes
  rw [List.countP_append, List.countP_append, List.countP_append,
    hS1, hS2, hS3, hS4]


/-- A dirty active entry row all of whose parent portfolio candidates are
soft-deleted (or absent) is never collected: the deleted-entries query
skips active rows and the per-portfolio loop only visits active
portfolios. -/
theorem collect_count_orphan_entry (db : DB) (e : EntryRow)
    (hnde : (db.entries.map (fun q => q.id)).Nodup)
    (he : e ∈ db.entries) (hact : e.deleted = false)
    (hdirty : e.synced_at = none)
    (horph : ∀ p ∈ db.portfolios, p.id = e.portfolio_id →
      p.deleted = true) :
    rec_count (collect_local_changes db) "portfolio_entries" e.id = 0 := by
  have hS1 : ((query_deleted_portfolios db).map
        (fun x => tombstone "portfolios" x.id x.sync_version)).countP
        (fun r => r.table_name == "portfolio_entries" && r.row_id == e.id)
      = 0 :=
    countP_map_table_zero "portfolio_entries" e.id "portfolios" (by decide)
      _ _ (fun a => rfl)
  have hS2 : (((list_portfolios db).filter
        (fun x => x.synced_at.isNone)).map
        (fun x => portfolio_to_sync_record x false)).countP
        (fun r => r.table_name == "portfolio_entries" && r.row_id == e.id)
      = 0 :=
    countP_map_table_zero "portfolio_entries" e.id "portfolios" (by decide)
      _ _ (fun a => rfl)
  have hS3 : ((query_deleted_entries db).map
        (fun x => tombstone "portfolio_entries" x.id x.sync_version)).countP
        (fun r => r.table_name == "portfolio_entries" && r.row_id == e.id)
      = 0 := by
    rw [countP_map_table_eq "portfolio_entries" e.id _ (fun q => q.id) _
      (fun a => rfl) (fun a => rfl)]
    unfold query_deleted_entries
    rw [List.countP_filter]
    have h := countP_key_val (fun q : EntryRow => q.id)
      (fun q => q.deleted && q.synced_at.isNone) db.entries e hnde he false
      (by simp [hact])
    simpa using h
  have hS4 : ((list_portfolios db).flatMap
        (collect_portfolio_block db)).countP
        (fun r => r.table_name == "portfolio_entries" && r.row_id == e.id)
      = 0 := by
    apply countP_flatMap_zero
    intro q hq
    rcases List.mem_filter.mp hq with ⟨hqmem, hqact⟩
    have hqdel : q.deleted = false := by simpa using hqact
    have hne : (e.portfolio_id == q.id) = false := by
      apply beq_eq_false_iff_ne.mpr
      intro hh
      have h1 := horph q hqmem hh.symm
      rw [hqdel] at h1
      simp at h1
    rw [collect_portfolio_block_count_entries db q e.id]
    have hext : db.entries.countP
        (fun x => ((x.id == e.id) && x.synced_at.isNone)
          && (x.portfolio_id == q.id && !x.deleted))
        = db.entries.countP (fun x => (x.id == e.id)
          && (x.synced_at.isNone && (x.portfolio_id == q.id && !x.deleted)))
      := countP_ext _ _ _ (fun a => by rw [Bool.and_assoc])
    rw [hext]
    have h := countP_key_val (fun x : EntryRow => x.id)
      (fun x => x.synced_at.isNone && (x.portfolio_id == q.id && !x.deleted))
      db.entries e hnde he false (by simp [hdirty, hne])
    simpa using h
  unfold rec_count collect_local_changes
  rw [List.countP_append, List.countP_append, List.countP_append,
    hS1, hS2, hS3, hS4]

/-- A dirty active payment row with no active parent chain (every matching
entry is soft-deleted, absent, or only under soft-deleted or absent
portfolios) is never collected. -/
theorem collect_count_orphan_payment (db : DB) (c : PaymentRow)
    (hndc : (db.payments.map (fun q => q.id)).Nodup)
    (hc : c ∈ db.payments) (hact : c.deleted = false)
    (hdirty : c.synced_at = none)
    (horph : ∀ e ∈ db.entries, e.id = c.entry_id → e.deleted = false →
      ∀ p ∈ db.portfolios, p.id = e.portfolio_id → p.deleted = true) :
    rec_count (collect_local_changes db) "bond_coupon_payments" c.id
      = 0 := by
  have hS1 : ((query_deleted_portfolios db).map
        (fun x => tombstone "portfolios" x.id x.sync_version)).countP
        (fun r => r.table_name == "bond_coupon_payments" && r.row_id == c.id)
      = 0 :=
    countP_map_table_zero "bond_coupon_payments" c.id "portfolios"
      (by decide) _ _ (fun a => rfl)
  have hS2 : (((list_portfolios db).filter
        (fun x => x.synced_at.isNone)).map
        (fun x => portfolio_to_sync_record x false)).countP
        (fun r => r.table_name == "bond_coupon_payments" && r.row_id == c.id)
      = 0 :=
    countP_map_table_zero "bond_coupon_payments" c.id "portfolios"
      (by decide) _ _ (fun a => rfl)
  have hS3 : ((query_deleted_entries db).map
        (fun x => tombstone "portfolio_entries" x.id x.sync_version)).countP
        (fun r => r.table_name == "bond_coupon_payments" && r.row_id == c.id)
      = 0 :=
    countP_map_table_zero "bond_coupon_payments" c.id "portfolio_entries"
      (by decide) _ _ (fun a => rfl)
  have hinner : ∀ e2 : EntryRow,
      db.payments.countP (fun x => ((x.id == c.id) && x.synced_at.isNone)
        && (x.entry_id == e2.id && !x.deleted))
      = if (c.entry_id == e2.id) = true then 1 else 0 := by
    intro e2
    have hext : db.payments.countP
        (fun x => ((x.id == c.id) && x.synced_at.isNone)
          && (x.entry_id == e2.id && !x.deleted))
        = db.payments.countP (fun x => (x.id == c.id)
          && (x.synced_at.isNone && (x.entry_id == e2.id && !x.deleted)))
      := countP_ext _ _ _ (fun a => by rw [Bool.and_assoc])
    rw [hext]
    have h := countP_key_val (fun x : PaymentRow => x.id)
      (fun x => x.synced_at.isNone && (x.entry_id == e2.id && !x.deleted))
      db.payments c hndc hc (c.entry_id == e2.id)
      (by simp [hact, hdirty])
    simpa using h
  have hS4 : ((list_portfolios db).flatMap
        (collect_portfolio_block db)).countP
        (fun r => r.table_name == "bond_coupon_payments" && r.row_id == c.id)
      = 0 := by
    apply countP_flatMap_zero
    intro q hq
    rcases List.mem_filter.mp hq with ⟨hqmem, hqact⟩
    have hqdel : q.deleted = false := by simpa using hqact
    rw [collect_portfolio_block_count_payments db q c.id]
    have hB : db.payments.countP
        (fun x => (x.id == c.id) && (x.deleted && x.synced_at.isNone))
        = 0 := by
      have h := countP_key_val (fun x : PaymentRow => x.id)
        (fun x => x.deleted && x.synced_at.isNone) db.payments c hndc hc
        false (by simp [hact])
      simpa using h
    have hfun : (fun e2 => db.payments.countP
          (fun x => ((x.id == c.id) && x.synced_at.isNone)
            && (x.entry_id == e2.id && !x.deleted)))
        = (fun e2 : EntryRow =>
            if (c.entry_id == e2.id) = true then 1 else 0) := funext hinner
    rw [hB, hfun]
    have hzero : ((list_entries db q.id).map
        (fun e2 : EntryRow =>
          if (c.entry_id == e2.id) = true then 1 else 0)).sum = 0 := by
      apply List.sum_eq_zero
      intro m hm
      rcases List.mem_map.mp hm with ⟨e2, he2, rfl⟩
      rcases List.mem_filter.mp he2 with ⟨he2mem, he2pred⟩
      simp only [Bool.and_eq_true] at he2pred
      rcases he2pred with ⟨he2pid, he2act⟩
      cases hbeq : (c.entry_id == e2.id) with
      | false => simp [hbeq]
      | true =>
        exfalso
        have he2id : e2.id = c.entry_id := ((beq_iff_eq).mp hbeq).symm
        have he2actf : e2.deleted = false := by simpa using he2act
        have h1 := horph e2 he2mem he2id he2actf q hqmem
          ((beq_iff_eq).mp he2pid).symm
        rw [hqdel] at h1
        simp at h1
    rw [hzero]
  unfold rec_count collect_local_changes
  rw [List.countP_append, List.countP_append, List.countP_append,
    hS1, hS2, hS3, hS4]

/-! Claim C4: dirty-set completeness of the Change Collector. -/

/-- C4 counterexample: on one store the collector both duplicates and
omits dirty rows.  With two active portfolios, the dirty soft-deleted
payment c1 is emitted twice (once per active portfolio); and the dirty
active entry eO, whose parent portfolio pD is soft-deleted, is emitted
zero times.  Both contradict the claimed exactly-one record per dirty
row. -/
theorem collect_misses_and_duplicates_dirty_rows :
    (rowPaymentDeleted ∈ dbOrphanMix.payments ∧
     rowPaymentDeleted.synced_at = none ∧
     rec_count (collect_local_changes dbOrphanMix)
       "bond_coupon_payments" "c1" = 2) ∧
    (rowEntryOrphan ∈ dbOrphanMix.entries ∧
     rowEntryOrphan.synced_at = none ∧
     rec_count (collect_local_changes dbOrphanMix)
       "portfolio_entries" "eO" = 0) := by
  decide

/-- C4 amended: with distinct primary keys per table, the collector output
contains exactly one record for each dirty portfolio (active or
soft-deleted), each dirty soft-deleted entry, each dirty active entry
whose parent portfolio is present and active, and each dirty active
payment whose parent entry is present and active under a present active
portfolio; each dirty soft-deleted payment instead appears once per
active portfolio, so exactly once only when exactly one active portfolio
exists; and a dirty active entry all of whose parent candidates are
soft-deleted or absent, or a dirty active payment with no active parent
chain, is omitted entirely (zero records). -/
theorem collect_local_changes_dirty_set_counts (db : DB)
    (hndp : (db.portfolios.map (fun q => q.id)).Nodup)
    (hnde : (db.entries.map (fun q => q.id)).Nodup)
    (hndc : (db.payments.map (fun q => q.id)).Nodup) :
    (∀ p ∈ db.portfolios, p.synced_at = none →
      rec_count (collect_local_changes db) "portfolios" p.id = 1) ∧
    (∀ e ∈ db.entries, e.synced_at = none → e.deleted = true →
      rec_count (collect_local_changes db) "portfolio_entries" e.id = 1) ∧
    (∀ e ∈ db.entries, e.synced_at = none → e.deleted = false →
      ∀ p0 ∈ db.portfolios, p0.deleted = false → p0.id = e.portfolio_id →
      rec_count (collect_local_changes db) "portfolio_entries" e.id = 1) ∧
    (∀ c ∈ db.payments, c.synced_at = none → c.deleted = true →
      rec_count (collect_local_changes db) "bond_coupon_payments" c.id
        = (list_portfolios db).length) ∧
    (∀ c ∈ db.payments, c.synced_at = none → c.deleted = false →
      ∀ e0 ∈ db.entries, e0.deleted = false → e0.id = c.entry_id →
      ∀ p0 ∈ db.portfolios, p0.deleted = false → p0.id = e0.portfolio_id →
      rec_count (collect_local_changes db) "bond_coupon_payments" c.id
        = 1) ∧
    (∀ e ∈ db.entries, e.synced_at = none → e.deleted = false →
      (∀ p ∈ db.portfolios, p.id = e.portfolio_id → p.deleted = true) →
      rec_count (collect_local_changes db) "portfolio_entries" e.id = 0) ∧
    (∀ c ∈ db.payments, c.synced_at = none → c.deleted = false →
      (∀ e ∈ db.entries, e.id = c.entry_id → e.deleted = false →
        ∀ p ∈ db.portfolios, p.id = e.portfolio_id → p.deleted = true) →
      rec_count (collect_local_changes db) "bond_coupon_payments" c.id
        = 0) :=
  ⟨fun p hp hd => collect_count_dirty_portfolio db p hndp hp hd,
   fun e he hd hdel => collect_count_deleted_entry db e hnde he hdel hd,
   fun e he hd hact p0 hp0 hp0a hp0i =>
     collect_count_active_entry db e p0 hndp hnde he hact hd hp0 hp0a hp0i,
   fun c hc hd hdel => collect_count_deleted_payment db c hndc hc hdel hd,
   fun c hc hd hact e0 he0 he0a he0i p0 hp0 hp0a hp0i =>
     collect_count_active_payment db c e0 p0 hndp hnde hndc hc hact hd
       he0 he0a he0i hp0 hp0a hp0i,
   fun e he hd hact horph =>
     collect_count_orphan_entry db e hnde he hact hd horph,
   fun c hc hd hact horph =>
     collect_count_orphan_payment db c hndc hc hact hd horph⟩

/-- Witness for C4 amended: on the mixed store, the dirty deleted payment
is counted once per active portfolio (twice) and the orphaned dirty
active entry zero times. -/
theorem collect_local_changes_dirty_set_counts_witness :
    rec_count (collect_local_changes dbOrphanMix)
      "bond_coupon_payments" rowPaymentDeleted.id
      = (list_portfolios dbOrphanMix).length ∧
    (list_portfolios dbOrphanMix).length = 2 ∧
    rec_count (collect_local_changes dbOrphanMix)
      "portfolio_entries" rowEntryOrphan.id = 0 :=
  ⟨(collect_local_changes_dirty_set_counts dbOrphanMix (by decide)
      (by decide) (by decide)).2.2.2.1 rowPaymentDeleted (by decide)
      (by decide) (by decide),
   by decide,
   (collect_local_changes_dirty_set_counts dbOrphanMix (by decide)
      (by decide) (by decide)).2.2.2.2.2.1 rowEntryOrphan (by decide)
      (by decide) (by decide) (by decide)⟩

/-- Witness for C9: concrete arguments on the two-portfolio store. -/
theorem query_deleted_payments_ignores_argument_witness :
    query_deleted_payments dbTwoPortfolios "e1"
      = query_deleted_payments dbTwoPortfolios "zzz" ∧
    (rowPaymentDeleted ∈ query_deleted_payments dbTwoPortfolios "e1" ↔
      (rowPaymentDeleted ∈ dbTwoPortfolios.payments ∧
        rowPaymentDeleted.deleted = true ∧
        rowPaymentDeleted.synced_at = none)) :=
  ⟨(query_deleted_payments_ignores_argument dbTwoPortfolios "e1" "zzz").1,
   (query_deleted_payments_ignores_argument dbTwoPortfolios "e1" "zzz").2
     rowPaymentDeleted⟩
